import Mathlib

/-!
# NLClassifier: model-contract resolution and result building

A shallow embedding of `nl_classifier.cc` (tensorflow_lite_support, task/text/nlclassifier).
Null pointers become `Option`, the member `labels_vector_` becomes a field that the
operations thread through, an `absl::Status` is a record of code, message and payload,
and an operation whose C++ has no defined result (a read past the end of a vector, a
`std::length_error`) returns `none`.
-/

/-! ## Data model -/

/-- Storage types of the inference engine (`TfLiteType` of the C API). -/
inductive TfLiteType
  | kTfLiteNoType
  | kTfLiteFloat32
  | kTfLiteInt32
  | kTfLiteUInt8
  | kTfLiteInt64
  | kTfLiteString
  | kTfLiteBool
  | kTfLiteInt16
  | kTfLiteComplex64
  | kTfLiteInt8
  | kTfLiteFloat16
  | kTfLiteFloat64
  | kTfLiteComplex128
  | kTfLiteUInt64
  | kTfLiteResource
  | kTfLiteVariant
  | kTfLiteUInt32
  | kTfLiteUInt16
  deriving DecidableEq, Repr

/-- Printable name of a storage type (`TfLiteTypeGetName` of the C API). -/
def TfLiteTypeGetName : TfLiteType → String
  | .kTfLiteNoType => "NOTYPE"
  | .kTfLiteFloat32 => "FLOAT32"
  | .kTfLiteInt32 => "INT32"
  | .kTfLiteUInt8 => "UINT8"
  | .kTfLiteInt64 => "INT64"
  | .kTfLiteString => "STRING"
  | .kTfLiteBool => "BOOL"
  | .kTfLiteInt16 => "INT16"
  | .kTfLiteComplex64 => "COMPLEX64"
  | .kTfLiteInt8 => "INT8"
  | .kTfLiteFloat16 => "FLOAT16"
  | .kTfLiteFloat64 => "FLOAT64"
  | .kTfLiteComplex128 => "COMPLEX128"
  | .kTfLiteUInt64 => "UINT64"
  | .kTfLiteResource => "RESOURCE"
  | .kTfLiteVariant => "VARIANT"
  | .kTfLiteUInt32 => "UINT32"
  | .kTfLiteUInt16 => "UINT16"

/-- A tensor handle of the inference engine, with the fields this code reads:
`name`, `type`, `dims` (`dims->size` is the length, `dims->data` the entries) and,
for a string tensor, the strings its buffer holds. Numeric buffer contents are not
interpreted here: a score records the read that produces it (see `Score`). -/
structure TfLiteTensor where
  name : String
  type : TfLiteType
  dims : List Int
  strings : List String
  deriving DecidableEq, Repr

/-- Kinds of associated file of the metadata schema (`AssociatedFileType`). -/
inductive AssociatedFileType
  | UNKNOWN
  | DESCRIPTIONS
  | TENSOR_AXIS_LABELS
  | TENSOR_VALUE_LABELS
  | TENSOR_AXIS_SCORE_CALIBRATION
  | VOCABULARY
  deriving DecidableEq, Repr

/-- An associated-file reference of a tensor metadata entry. The code reads its
`name` without a null check, so the name is taken as present. -/
structure AssociatedFile where
  name : String
  type : AssociatedFileType
  deriving DecidableEq, Repr

/-- Metadata of one tensor: `name()` and `associated_files()` may each be null. -/
structure TensorMetadata where
  name : Option String
  associated_files : Option (List AssociatedFile)
  deriving DecidableEq, Repr

/-- Selectors of the three tensor roles (`NLClassifierOptions`). -/
structure NLClassifierOptions where
  input_tensor_index : Int
  output_score_tensor_index : Int
  output_label_tensor_index : Int
  input_tensor_name : String
  output_score_tensor_name : String
  output_label_tensor_name : String
  deriving DecidableEq, Repr

/-- Canonical status codes used by this file (`absl::StatusCode`). -/
inductive StatusCode
  | kOk
  | kInvalidArgument
  deriving DecidableEq, Repr

/-- Fine-grained error payloads used by this file (`TfLiteSupportStatus`). -/
inductive TfLiteSupportStatus
  | kMetadataNotFoundError
  | kMetadataMissingLabelsError
  | kInputTensorNotFoundError
  | kInvalidInputTensorTypeError
  | kOutputTensorNotFoundError
  | kInvalidOutputTensorTypeError
  deriving DecidableEq, Repr

/-- An `absl::Status`: canonical code, human-readable message, optional payload. -/
structure Status where
  code : StatusCode
  message : String
  payload : Option TfLiteSupportStatus
  deriving DecidableEq, Repr

/-- The success status (`absl::OkStatus()`). -/
def OkStatus : Status := ⟨.kOk, "", none⟩

/-- A failure status carrying a payload (`CreateStatusWithPayload`). -/
def CreateStatusWithPayload (code : StatusCode) (message : String)
    (tfls_code : TfLiteSupportStatus) : Status :=
  ⟨code, message, some tfls_code⟩

/-- Whether a status is the success status (`Status::ok()`). -/
def Status.ok (s : Status) : Bool := decide (s.code = StatusCode.kOk)

/-- The score of a category, recorded as the read of the score tensor that
produces it: `dequantized i` is `Dequantize(*scores, i)`, `float32 i` is
`GetTensorData<float>(scores)[i]`, `float64 i` is `GetTensorData<double>(scores)[i]`. -/
inductive Score
  | dequantized (index : Nat)
  | float32 (index : Nat)
  | float64 (index : Nat)
  deriving DecidableEq, Repr

/-- One classification result (`core::Category`): a label and its score. -/
structure Category where
  label : String
  score : Score
  deriving DecidableEq, Repr

/-- What the loaded model package exposes to the classifier: the engine tensors
(`GetInputTensors`, `GetOutputTensors`) and the metadata extractor
(`GetInputTensorMetadata`, `GetOutputTensorMetadata`, and the bundled files that
`GetAssociatedFile` serves, as pairs of file name and contents). -/
structure ModelPackage where
  input_tensors : List TfLiteTensor
  output_tensors : List TfLiteTensor
  input_tensor_metadata : Option (List TensorMetadata)
  output_tensor_metadata : Option (List TensorMetadata)
  associated_files : List (String × String)
  deriving DecidableEq, Repr

/-- The classifier object: the model it was created from and its two members,
`options_` and `labels_vector_` (null until a label file is loaded). -/
structure NLClassifier where
  model : ModelPackage
  options_ : NLClassifierOptions
  labels_vector_ : Option (List String)
  deriving DecidableEq, Repr

/-! ## Collaborators that are not among the sources -/

/-- Lookup of a bundled file by name (`ModelMetadataExtractor::GetAssociatedFile`):
the contents, or `none` when extraction fails. -/
def GetAssociatedFile (model : ModelPackage) (name : String) : Option String :=
  (model.associated_files.find? (fun entry => entry.1 == name)).map (fun entry => entry.2)

/-- Lines of a character buffer; a final newline ends the last line and does not
open another one. -/
def bufferLines : List Char → List (List Char)
  | [] => []
  | c :: cs =>
    if c = Char.ofNat 10 then [] :: bufferLines cs
    else
      match bufferLines cs with
      | [] => [[c]]
      | l :: ls => (c :: l) :: ls

/-- Removal of leading and trailing whitespace from a line. -/
def trimLine (l : List Char) : List Char :=
  ((l.dropWhile Char.isWhitespace).reverse.dropWhile Char.isWhitespace).reverse

/-- Modelled from the spec: `LoadVocabFromBuffer` (utils/common_utils, not among the
sources). The raw bytes of the file are tokenized into one label per line, lines are
whitespace-trimmed, order is preserved and duplicates are kept. -/
def LoadVocabFromBuffer (buffer : String) : List String :=
  (bufferLines buffer.data).map (fun l => String.mk (trimLine l))

/-- Modelled from the spec: `FindTensorWithNameOrIndex` (task_utils.h, not among the
sources), the Tensor Locator. If `name` is non-empty and the metadata list is present,
the metadata entries are scanned in order for one whose declared name equals `name`,
and the tensor at that position is returned. Without a match by name (or without
metadata) the positional `index` is used if it lies within bounds. Otherwise the
outcome is "not found". -/
def FindTensorWithNameOrIndex (tensors : List TfLiteTensor)
    (metadata_list : Option (List TensorMetadata)) (name : String) (index : Int) :
    Option TfLiteTensor :=
  let by_name : Option Nat :=
    if name ≠ "" then
      match metadata_list with
      | some entries => entries.findIdx? (fun m => decide (m.name = some name))
      | none => none
    else none
  match by_name with
  | some position => tensors[position]?
  | none =>
    if 0 ≤ index ∧ index < (tensors.length : Int) then tensors[index.toNat]? else none

/-- Modelled from the spec: `GetStringAtIndex` (task_utils.h, not among the sources),
the string at index `index` of a string tensor; there is none past the end. -/
def GetStringAtIndex (labels : TfLiteTensor) (index : Nat) : Option String :=
  labels.strings[index]?

/-- Modelled from the spec: `Dequantize` (task_utils.h, not among the sources), the
Numeric Decoder applied to position `index` of a quantized tensor,
`(raw - zero_point) * scale`; recorded as the read it performs. -/
def Dequantize (_tensor : TfLiteTensor) (index : Nat) : Score :=
  Score.dequantized index

/-- Modelled from the spec: `kOutputTensorLabelFileIndex` (nl_classifier.h, not among
the sources): the label file is the first associated file. -/
def kOutputTensorLabelFileIndex : Nat := 0

/-- Modelled from the spec: `kOutputTensorIndex` (nl_classifier.h, not among the
sources): the file that is extracted is the first associated file. -/
def kOutputTensorIndex : Nat := 0

/-! ## Label Resolver -/

/-- `NLClassifier::TrySetLabelFromMetadata`: the status and the classifier after the
call. `labels_vector_` is assigned on the success path only. -/
def NLClassifier.TrySetLabelFromMetadata (self : NLClassifier)
    (metadata : Option TensorMetadata) : Status × NLClassifier :=
  match metadata with
  | none =>
    (CreateStatusWithPayload StatusCode.kInvalidArgument
      "Metadata not found for output tensor"
      TfLiteSupportStatus.kMetadataNotFoundError, self)
  | some md =>
    match md.associated_files with
    | none =>
      (CreateStatusWithPayload StatusCode.kInvalidArgument
        "No label file found for tensor metadata."
        TfLiteSupportStatus.kMetadataMissingLabelsError, self)
    | some [] =>
      (CreateStatusWithPayload StatusCode.kInvalidArgument
        "No label file found for tensor metadata."
        TfLiteSupportStatus.kMetadataMissingLabelsError, self)
    | some (f :: fs) =>
      let associated_file : AssociatedFile :=
        (f :: fs).get ⟨kOutputTensorLabelFileIndex, Nat.succ_pos fs.length⟩
      if associated_file.type ≠ AssociatedFileType.TENSOR_AXIS_LABELS then
        (CreateStatusWithPayload StatusCode.kInvalidArgument
          "Incorrect label type found for tensor metadata."
          TfLiteSupportStatus.kMetadataMissingLabelsError, self)
      else
        match GetAssociatedFile self.model
            ((f :: fs).get ⟨kOutputTensorIndex, Nat.succ_pos fs.length⟩).name with
        | some label_buffer =>
          (OkStatus, { self with labels_vector_ := some (LoadVocabFromBuffer label_buffer) })
        | none =>
          (CreateStatusWithPayload StatusCode.kInvalidArgument
            "Failed to extract label file from metadata."
            TfLiteSupportStatus.kMetadataMissingLabelsError, self)

/-! ## Building results -/

/-- The category count that `BuildResults` reads off the score tensor:
`dims->data[1]` when `dims->size == 2`, else `dims->data[0]` (absent for rank 0). -/
def scoreCategories (scores : TfLiteTensor) : Option Int :=
  if scores.dims.length = 2 then scores.dims[1]? else scores.dims[0]?

/-- The label that one loop iteration of `BuildResults` computes for `index`. -/
def NLClassifier.labelAt (self : NLClassifier) (labels : Option TfLiteTensor)
    (index : Nat) : Option String :=
  let use_index_as_labels : Bool := self.labels_vector_.isNone && labels.isNone
  if use_index_as_labels then some (toString index)
  else
    match self.labels_vector_ with
    | none => labels.bind (fun t => GetStringAtIndex t index)
    | some labels_vector => labels_vector[index]?

/-- The score that one loop iteration of `BuildResults` computes for `index`. -/
def scoreAt (scores : TfLiteTensor) (index : Nat) : Score :=
  let should_dequantize : Bool :=
    decide (scores.type = TfLiteType.kTfLiteUInt8) ||
    decide (scores.type = TfLiteType.kTfLiteInt8) ||
    decide (scores.type = TfLiteType.kTfLiteInt16)
  if should_dequantize then Dequantize scores index
  else if scores.type = TfLiteType.kTfLiteFloat32 then Score.float32 index
  else Score.float64 index

/-- The vector `predictions` after `n` iterations of the loop of `BuildResults`,
each iteration appending the entry for its index. -/
def buildLoop (entry : Nat → Option Category) : Nat → Option (List Category)
  | 0 => some []
  | n + 1 =>
    match buildLoop entry n with
    | none => none
    | some predictions =>
      match entry n with
      | none => none
      | some c => some (predictions ++ [c])

/-- `NLClassifier::BuildResults`. `scores` is dereferenced unconditionally, `labels`
may be null. The result is `none` where the C++ has no defined result: a rank-0
shape, a negative count passed to `reserve`, a label index past the end. -/
def NLClassifier.BuildResults (self : NLClassifier) (scores : TfLiteTensor)
    (labels : Option TfLiteTensor) : Option (List Category) :=
  match scoreCategories scores with
  | none => none
  | some categories =>
    if categories < 0 then none
    else
      buildLoop
        (fun index => (self.labelAt labels index).map (fun label => ⟨label, scoreAt scores index⟩))
        categories.toNat

/-- `NLClassifier::Postprocess`: both tensors are looked up again among the output
tensors of the call; the label tensor is looked up with the input tensor metadata. -/
def NLClassifier.Postprocess (self : NLClassifier) (output_tensors : List TfLiteTensor)
    (_input : String) : Option (List Category) :=
  match FindTensorWithNameOrIndex output_tensors self.model.output_tensor_metadata
      self.options_.output_score_tensor_name self.options_.output_score_tensor_index with
  | none => none
  | some scores =>
    self.BuildResults scores
      (FindTensorWithNameOrIndex output_tensors self.model.input_tensor_metadata
        self.options_.output_label_tensor_name self.options_.output_label_tensor_index)

/-! ## Initialization -/

/-- Storage types accepted for the score tensor (`valid_types` of `Initialize`). -/
def valid_types : List TfLiteType :=
  [TfLiteType.kTfLiteUInt8, TfLiteType.kTfLiteInt8, TfLiteType.kTfLiteInt16,
   TfLiteType.kTfLiteFloat32, TfLiteType.kTfLiteFloat64]

/-- The loop of `Initialize` over the output tensor metadata: every entry whose name
is present and equals `score_name` is handed to `TrySetLabelFromMetadata`, in order,
until one call succeeds. The flag tells whether a call succeeded (the loop returned
`OkStatus`). -/
def NLClassifier.metadataLabelLoop (self : NLClassifier) (score_name : String) :
    List TensorMetadata → Bool × NLClassifier
  | [] => (false, self)
  | metadata :: rest =>
    if metadata.name = some score_name then
      let attempt := self.TrySetLabelFromMetadata (some metadata)
      if attempt.1.ok then (true, attempt.2)
      else attempt.2.metadataLabelLoop score_name rest
    else self.metadataLabelLoop score_name rest

/-- The metadata step of `Initialize`: the loop runs only when the output tensor
metadata is present and has as many entries as there are output tensors. -/
def NLClassifier.metadataLabelStep (self : NLClassifier) (options : NLClassifierOptions) :
    Bool × NLClassifier :=
  match self.model.output_tensor_metadata with
  | some output_tensor_metadatas =>
    if output_tensor_metadatas.length = self.model.output_tensors.length then
      self.metadataLabelLoop options.output_score_tensor_name output_tensor_metadatas
    else (false, self)
  | none => (false, self)

/-- The failure status of the score tensor type check of `Initialize`. -/
def scoreTypeMismatch (scores : TfLiteTensor) : Status :=
  CreateStatusWithPayload StatusCode.kInvalidArgument
    ("Type mismatch for score tensor " ++ scores.name ++
      ". Requested one of these types: " ++
      "INT8/UINT8/INT16/FLOAT32/FLOAT64, got " ++
      TfLiteTypeGetName scores.type ++ ".")
    TfLiteSupportStatus.kInvalidOutputTensorTypeError

/-- The failure status of the label tensor check of `Initialize`; its message is
built from the score tensor. -/
def labelTypeMismatch (scores : TfLiteTensor) : Status :=
  CreateStatusWithPayload StatusCode.kInvalidArgument
    ("Type mismatch for label tensor " ++ scores.name ++ ". Requested STRING, got " ++
      TfLiteTypeGetName scores.type ++ ".")
    TfLiteSupportStatus.kInvalidOutputTensorTypeError

/-- The last step of `Initialize`: when `labels_vector_` is still null, the output
label tensor is looked up and, if found, must have type STRING. -/
def NLClassifier.labelTensorStep (self : NLClassifier) (options : NLClassifierOptions)
    (scores : TfLiteTensor) : Status :=
  if self.labels_vector_.isNone then
    match FindTensorWithNameOrIndex self.model.output_tensors
        self.model.output_tensor_metadata options.output_label_tensor_name
        options.output_label_tensor_index with
    | some labels =>
      if labels.type ≠ TfLiteType.kTfLiteString then labelTypeMismatch scores
      else OkStatus
    | none => OkStatus
  else OkStatus

/-- `NLClassifier::Initialize`: the returned status and the classifier after the call. -/
def NLClassifier.Initialize (self : NLClassifier) (options : NLClassifierOptions) :
    Status × NLClassifier :=
  let self : NLClassifier := { self with options_ := options }
  match FindTensorWithNameOrIndex self.model.input_tensors
      self.model.input_tensor_metadata options.input_tensor_name
      options.input_tensor_index with
  | none =>
    (CreateStatusWithPayload StatusCode.kInvalidArgument
      ("No input tensor found with name " ++ options.input_tensor_name ++
        " or at index " ++ toString options.input_tensor_index)
      TfLiteSupportStatus.kInputTensorNotFoundError, self)
  | some input_tensor =>
    if input_tensor.type ≠ TfLiteType.kTfLiteString then
      (CreateStatusWithPayload StatusCode.kInvalidArgument
        ("Type mismatch for input tensor " ++ input_tensor.name ++
          ". Requested STRING, got " ++ TfLiteTypeGetName input_tensor.type ++ ".")
        TfLiteSupportStatus.kInvalidInputTensorTypeError, self)
    else
      match FindTensorWithNameOrIndex self.model.output_tensors
          self.model.output_tensor_metadata options.output_score_tensor_name
          options.output_score_tensor_index with
      | none =>
        (CreateStatusWithPayload StatusCode.kInvalidArgument
          ("No output score tensor found with name " ++ options.output_score_tensor_name ++
            " or at index " ++ toString options.output_score_tensor_index)
          TfLiteSupportStatus.kOutputTensorNotFoundError, self)
      | some scores =>
        if ¬ (scores.type ∈ valid_types) then
          (scoreTypeMismatch scores, self)
        else
          let step := self.metadataLabelStep options
          if step.1 then (OkStatus, step.2)
          else (step.2.labelTensorStep options scores, step.2)

/-! ## Example models -/

/-- Options that select every role by the first position and name no label tensor position. -/
def exampleOptions : NLClassifierOptions :=
  ⟨0, 0, -1, "INPUT", "OUTPUT_SCORE", "OUTPUT_LABEL"⟩

/-- Options that also select the output label tensor at position 1. -/
def labelTensorOptions : NLClassifierOptions :=
  ⟨0, 0, 1, "INPUT", "OUTPUT_SCORE", "OUTPUT_LABEL"⟩

/-- A string input tensor. -/
def textInput : TfLiteTensor := ⟨"input_text", TfLiteType.kTfLiteString, [1], []⟩

/-- A float input tensor, which is not a valid text input. -/
def floatInput : TfLiteTensor := ⟨"input_ids", TfLiteType.kTfLiteFloat32, [1, 8], []⟩

/-- A float score tensor of shape [1, 3]. -/
def floatScores3 : TfLiteTensor := ⟨"probability", TfLiteType.kTfLiteFloat32, [1, 3], []⟩

/-- A boolean tensor of shape [1, 3], which is not a valid score tensor. -/
def boolScores3 : TfLiteTensor := ⟨"flags", TfLiteType.kTfLiteBool, [1, 3], []⟩

/-- A string tensor holding three labels. -/
def labelStrings3 : TfLiteTensor :=
  ⟨"labels", TfLiteType.kTfLiteString, [3], ["neg", "neu", "pos"]⟩

/-- An int32 tensor in the place of a label tensor. -/
def intLabels3 : TfLiteTensor := ⟨"label_ids", TfLiteType.kTfLiteInt32, [3], []⟩

/-- A metadata entry carrying a label file. -/
def labelledEntry (name : String) : TensorMetadata :=
  ⟨some name, some [⟨"labels.txt", AssociatedFileType.TENSOR_AXIS_LABELS⟩]⟩

/-- A model without metadata: one string input, one float output. -/
def bareModel : ModelPackage := ⟨[textInput], [floatScores3], none, none, []⟩

/-- A model without input tensors. -/
def noInputModel : ModelPackage := ⟨[], [floatScores3], none, none, []⟩

/-- A model whose only input tensor is a float tensor. -/
def floatInputModel : ModelPackage := ⟨[floatInput], [floatScores3], none, none, []⟩

/-- A model without output tensors. -/
def noOutputModel : ModelPackage := ⟨[textInput], [], none, none, []⟩

/-- A model whose only output tensor is boolean. -/
def boolScoreModel : ModelPackage := ⟨[textInput], [boolScores3], none, none, []⟩

/-- A model with a string label tensor next to the score tensor. -/
def stringLabelModel : ModelPackage :=
  ⟨[textInput], [floatScores3, labelStrings3], none, none, []⟩

/-- A model with an int32 tensor next to the score tensor. -/
def intLabelModel : ModelPackage :=
  ⟨[textInput], [floatScores3, intLabels3], none, none, []⟩

/-- A model whose output metadata has two entries for one output tensor; the entry
named as the configured score tensor carries a label file. -/
def staleMetadataModel : ModelPackage :=
  ⟨[textInput], [floatScores3], none,
    some [labelledEntry "OUTPUT_SCORE", ⟨some "unused", none⟩],
    [("labels.txt", "neg\nneu\npos\n")]⟩

/-- A model whose single output tensor has a metadata entry named "probability" that
carries a label file; the configured score tensor name matches no entry. -/
def indexResolvedModel : ModelPackage :=
  ⟨[textInput], [floatScores3], none, some [labelledEntry "probability"],
    [("labels.txt", "neg\nneu\npos\n")]⟩

/-- A model with metadata entries for the four outcomes of the Label Resolver. -/
def resolverModel : ModelPackage :=
  ⟨[textInput], [floatScores3], none, none, [("labels.txt", "neg\nneu\npos\n")]⟩

/-- The classifier object right after creation from a model, before `Initialize`. -/
def newClassifier (model : ModelPackage) : NLClassifier := ⟨model, exampleOptions, none⟩

/-- A classifier holding a label list of three entries and selecting a label tensor. -/
def threeLabelClassifier : NLClassifier :=
  ⟨stringLabelModel, labelTensorOptions, some ["negative", "neutral", "positive"]⟩


/-! ## Classification -/

/-- Modelled from the spec: the call sequence of `Infer` (base task API, not among the
sources) behind `NLClassifier::Classify`: the text is written into the input tensor,
the inference engine is invoked once, and `Postprocess` reads the output tensors.
The engine is a collaborator: `engine text` stands for the output tensors it holds
after the invocation on `text`. -/
def NLClassifier.Classify (self : NLClassifier) (engine : String → List TfLiteTensor)
    (text : String) : Option (List Category) :=
  self.Postprocess (engine text) text

/-! ## Further example models -/

/-- A string tensor holding the three labels in the reverse order. -/
def reversedLabelStrings3 : TfLiteTensor :=
  ⟨"labels", TfLiteType.kTfLiteString, [3], ["pos", "neu", "neg"]⟩

/-- An engine whose label tensor lists the labels in an order that depends on the text. -/
def rankingEngine (text : String) : List TfLiteTensor :=
  if text = "good" then [floatScores3, reversedLabelStrings3]
  else [floatScores3, labelStrings3]

/-- An engine whose output tensors do not depend on the text. -/
def constantEngine (_text : String) : List TfLiteTensor := [floatScores3]

/-- Options that select all three tensors by their metadata names and give no
position for the label tensor. -/
def namedOptions : NLClassifierOptions :=
  ⟨0, 0, -1, "input_text", "probability", "labels"⟩

/-- A model with metadata for its input tensor and for both output tensors, the
second of which is a string label tensor named "labels". -/
def namedLabelModel : ModelPackage :=
  ⟨[textInput], [floatScores3, labelStrings3],
    some [⟨some "input_text", none⟩],
    some [⟨some "probability", none⟩, ⟨some "labels", none⟩], []⟩

/-- A model whose score tensor has three categories and whose label file has two lines. -/
def twoLineLabelModel : ModelPackage :=
  ⟨[textInput], [floatScores3], none, some [labelledEntry "OUTPUT_SCORE"],
    [("labels.txt", "neg\npos\n")]⟩

/-- A model with two metadata entries named as the configured score tensor: the first
has no associated file, the second carries a label file. -/
def duplicateEntryModel : ModelPackage :=
  ⟨[textInput], [floatScores3, boolScores3], none,
    some [⟨some "OUTPUT_SCORE", none⟩, labelledEntry "OUTPUT_SCORE"],
    [("labels.txt", "neg\nneu\npos\n")]⟩

/-- A model whose score tensor metadata carries a label file and whose second output
tensor, selected as label tensor by position 1, is an int32 tensor. -/
def labelledIntLabelModel : ModelPackage :=
  ⟨[textInput], [floatScores3, intLabels3], none,
    some [labelledEntry "OUTPUT_SCORE", ⟨some "label_ids", none⟩],
    [("labels.txt", "neg\nneu\npos\n")]⟩

/-- A quantized score tensor of shape [3]. -/
def quantizedScores3 : TfLiteTensor := ⟨"logits", TfLiteType.kTfLiteUInt8, [3], []⟩

/-- A double score tensor of shape [1, 2]. -/
def doubleScores2 : TfLiteTensor := ⟨"odds", TfLiteType.kTfLiteFloat64, [1, 2], []⟩

/-! ## Facts about the result loop -/

theorem buildLoop_length (entry : Nat → Option Category) :
    ∀ (n : Nat) (r : List Category), buildLoop entry n = some r → r.length = n := by
  intro n
  induction n with
  | zero =>
    intro r h
    simp only [buildLoop, Option.some.injEq] at h
    subst h
    rfl
  | succ k ih =>
    intro r h
    simp only [buildLoop] at h
    cases hk : buildLoop entry k with
    | none => simp [hk] at h
    | some ps =>
      cases he : entry k with
      | none => simp [hk, he] at h
      | some c =>
        simp only [hk, he, Option.some.injEq] at h
        subst h
        simp [ih ps hk]

theorem buildLoop_getElem (entry : Nat → Option Category) :
    ∀ (n : Nat) (r : List Category), buildLoop entry n = some r →
      ∀ i, i < n → r[i]? = entry i := by
  intro n
  induction n with
  | zero =>
    intro r _ i hi
    omega
  | succ k ih =>
    intro r h i hi
    simp only [buildLoop] at h
    cases hk : buildLoop entry k with
    | none => simp [hk] at h
    | some ps =>
      cases he : entry k with
      | none => simp [hk, he] at h
      | some c =>
        simp only [hk, he, Option.some.injEq] at h
        subst h
        have hlen : ps.length = k := buildLoop_length entry k ps hk
        by_cases hik : i < k
        · rw [List.getElem?_append_left (by omega)]
          exact ih ps hk i hik
        · have hieq : i = k := by omega
          subst hieq
          rw [List.getElem?_append_right (by omega)]
          simp [hlen, he]

theorem buildLoop_defined (entry : Nat → Option Category) :
    ∀ (n : Nat), (∀ i, i < n → ∃ c, entry i = some c) →
      ∃ r, buildLoop entry n = some r := by
  intro n
  induction n with
  | zero =>
    intro _
    exact ⟨[], rfl⟩
  | succ k ih =>
    intro h
    obtain ⟨ps, hps⟩ := ih (fun i hi => h i (by omega))
    obtain ⟨c, hc⟩ := h k (by omega)
    exact ⟨ps ++ [c], by simp [buildLoop, hps, hc]⟩

theorem BuildResults_eq_loop (self : NLClassifier) (scores : TfLiteTensor)
    (labels : Option TfLiteTensor) (n : Nat)
    (hcount : scoreCategories scores = some (n : Int)) :
    self.BuildResults scores labels =
      buildLoop (fun index =>
        (self.labelAt labels index).map (fun label => ⟨label, scoreAt scores index⟩)) n := by
  simp [NLClassifier.BuildResults, hcount]

theorem BuildResults_count (self : NLClassifier) (scores : TfLiteTensor)
    (labels : Option TfLiteTensor) (r : List Category)
    (h : self.BuildResults scores labels = some r) :
    scoreCategories scores = some (r.length : Int) := by
  unfold NLClassifier.BuildResults at h
  cases hc : scoreCategories scores with
  | none => simp [hc] at h
  | some categories =>
    simp only [hc] at h
    by_cases hneg : categories < 0
    · simp [hneg] at h
    · simp only [hneg, if_false] at h
      have hlen := buildLoop_length _ _ _ h
      rw [hlen]
      congr 1
      omega

/-! ## Facts about building results -/

theorem scoreCategories_of_shape (scores : TfLiteTensor) (n : Int)
    (hshape : scores.dims = [n] ∨ ∃ k : Int, scores.dims = [k, n]) :
    scoreCategories scores = some n := by
  rcases hshape with h | ⟨k, h⟩ <;> simp [scoreCategories, h]

theorem labelAt_defined (self : NLClassifier) (labels : Option TfLiteTensor) (n : Nat)
    (hlist : ∀ lv, self.labels_vector_ = some lv → n ≤ lv.length)
    (htensor : self.labels_vector_ = none → ∀ t, labels = some t → n ≤ t.strings.length) :
    ∀ i, i < n → ∃ l, self.labelAt labels i = some l := by
  intro i hi
  unfold NLClassifier.labelAt
  cases hlv : self.labels_vector_ with
  | some lv =>
    have hle := hlist lv hlv
    have hi2 : i < lv.length := by omega
    exact ⟨lv[i], by simp [List.getElem?_eq_getElem hi2]⟩
  | none =>
    cases hl : labels with
    | none => exact ⟨toString i, by simp⟩
    | some t =>
      have hle := htensor hlv t hl
      have hi2 : i < t.strings.length := by omega
      exact ⟨t.strings[i], by simp [GetStringAtIndex, List.getElem?_eq_getElem hi2]⟩

theorem BuildResults_defined (self : NLClassifier) (scores : TfLiteTensor)
    (labels : Option TfLiteTensor) (n : Nat)
    (hcount : scoreCategories scores = some (n : Int))
    (hlist : ∀ lv, self.labels_vector_ = some lv → n ≤ lv.length)
    (htensor : self.labels_vector_ = none → ∀ t, labels = some t → n ≤ t.strings.length) :
    ∃ r, self.BuildResults scores labels = some r ∧ r.length = n := by
  rw [BuildResults_eq_loop self scores labels n hcount]
  obtain ⟨r, hr⟩ := buildLoop_defined
    (fun index => (self.labelAt labels index).map (fun label => ⟨label, scoreAt scores index⟩)) n
    (by
      intro i hi
      obtain ⟨l, hl⟩ := labelAt_defined self labels n hlist htensor i hi
      exact ⟨⟨l, scoreAt scores i⟩, by simp [hl]⟩)
  exact ⟨r, hr, buildLoop_length _ _ _ hr⟩

theorem labelAt_positional (self : NLClassifier) (hlv : self.labels_vector_ = none)
    (i : Nat) : self.labelAt none i = some (toString i) := by
  simp [NLClassifier.labelAt, hlv]

theorem BuildResults_positional (self : NLClassifier) (scores : TfLiteTensor) (n : Nat)
    (hcount : scoreCategories scores = some (n : Int))
    (hlv : self.labels_vector_ = none) :
    ∃ r, self.BuildResults scores none = some r ∧
      r.map (fun c => c.label) = (List.range n).map (fun i => toString i) := by
  obtain ⟨r, hr, hlen⟩ := BuildResults_defined self scores none n hcount
    (fun lv h => by simp [hlv] at h) (fun _ t h => by cases h)
  refine ⟨r, hr, ?_⟩
  rw [BuildResults_eq_loop self scores none n hcount] at hr
  apply List.ext_getElem?
  intro i
  by_cases hi : i < n
  · have hget := buildLoop_getElem _ n r hr i hi
    simp only [labelAt_positional self hlv, Option.map_some'] at hget
    simp [List.getElem?_map, hget, List.getElem?_range hi]
  · have h1 : r.length ≤ i := by omega
    have h2 : (List.range n)[i]? = none := List.getElem?_eq_none (by simp; omega)
    simp [List.getElem?_map, List.getElem?_eq_none h1, h2]
/-! ## Facts about the Label Resolver -/

theorem TrySetLabelFromMetadata_absent (self : NLClassifier) :
    self.TrySetLabelFromMetadata none =
      (CreateStatusWithPayload StatusCode.kInvalidArgument
        "Metadata not found for output tensor"
        TfLiteSupportStatus.kMetadataNotFoundError, self) := rfl

theorem TrySetLabelFromMetadata_no_files (self : NLClassifier) (md : TensorMetadata)
    (h : md.associated_files = none ∨ md.associated_files = some []) :
    self.TrySetLabelFromMetadata (some md) =
      (CreateStatusWithPayload StatusCode.kInvalidArgument
        "No label file found for tensor metadata."
        TfLiteSupportStatus.kMetadataMissingLabelsError, self) := by
  rcases h with h | h <;> simp [NLClassifier.TrySetLabelFromMetadata, h]

theorem TrySetLabelFromMetadata_files (self : NLClassifier) (md : TensorMetadata)
    (f : AssociatedFile) (fs : List AssociatedFile)
    (h : md.associated_files = some (f :: fs)) :
    self.TrySetLabelFromMetadata (some md) =
      if f.type ≠ AssociatedFileType.TENSOR_AXIS_LABELS then
        (CreateStatusWithPayload StatusCode.kInvalidArgument
          "Incorrect label type found for tensor metadata."
          TfLiteSupportStatus.kMetadataMissingLabelsError, self)
      else
        match GetAssociatedFile self.model f.name with
        | some label_buffer =>
          (OkStatus, { self with labels_vector_ := some (LoadVocabFromBuffer label_buffer) })
        | none =>
          (CreateStatusWithPayload StatusCode.kInvalidArgument
            "Failed to extract label file from metadata."
            TfLiteSupportStatus.kMetadataMissingLabelsError, self) := by
  simp only [NLClassifier.TrySetLabelFromMetadata, h, kOutputTensorLabelFileIndex,
    kOutputTensorIndex]
  rfl

theorem TrySetLabelFromMetadata_unchanged (self : NLClassifier)
    (metadata : Option TensorMetadata)
    (h : (self.TrySetLabelFromMetadata metadata).1.ok = false) :
    (self.TrySetLabelFromMetadata metadata).2 = self := by
  cases metadata with
  | none => rfl
  | some md =>
    cases hfiles : md.associated_files with
    | none => rw [TrySetLabelFromMetadata_no_files self md (Or.inl hfiles)]
    | some files =>
      cases files with
      | nil => rw [TrySetLabelFromMetadata_no_files self md (Or.inr hfiles)]
      | cons f fs =>
        rw [TrySetLabelFromMetadata_files self md f fs hfiles] at h ⊢
        by_cases htype : f.type = AssociatedFileType.TENSOR_AXIS_LABELS
        · cases hbuf : GetAssociatedFile self.model f.name with
          | none => simp [htype, hbuf]
          | some buf => simp [htype, hbuf, OkStatus, Status.ok] at h
        · simp [htype]

theorem TrySetLabelFromMetadata_status_congr (a b : NLClassifier)
    (metadata : Option TensorMetadata) (h : a.model = b.model) :
    (a.TrySetLabelFromMetadata metadata).1 = (b.TrySetLabelFromMetadata metadata).1 := by
  cases metadata with
  | none => rfl
  | some md =>
    cases hfiles : md.associated_files with
    | none =>
      rw [TrySetLabelFromMetadata_no_files a md (Or.inl hfiles),
        TrySetLabelFromMetadata_no_files b md (Or.inl hfiles)]
    | some files =>
      cases files with
      | nil =>
        rw [TrySetLabelFromMetadata_no_files a md (Or.inr hfiles),
          TrySetLabelFromMetadata_no_files b md (Or.inr hfiles)]
      | cons f fs =>
        rw [TrySetLabelFromMetadata_files a md f fs hfiles,
          TrySetLabelFromMetadata_files b md f fs hfiles, h]
        by_cases htype : f.type = AssociatedFileType.TENSOR_AXIS_LABELS
        · cases hbuf : GetAssociatedFile b.model f.name <;> simp [htype]
        · simp [htype]

/-! ## Facts about the metadata step of initialization -/

theorem metadataLabelLoop_fails (score_name : String) :
    ∀ (entries : List TensorMetadata) (self : NLClassifier),
      (∀ md, md ∈ entries → md.name = some score_name →
        (self.TrySetLabelFromMetadata (some md)).1.ok = false) →
      self.metadataLabelLoop score_name entries = (false, self) := by
  intro entries
  induction entries with
  | nil => intro self _; rfl
  | cons md rest ih =>
    intro self h
    unfold NLClassifier.metadataLabelLoop
    by_cases hname : md.name = some score_name
    · have hfail := h md (List.mem_cons_self md rest) hname
      have hsame := TrySetLabelFromMetadata_unchanged self (some md) hfail
      simp only [hname, if_true, hfail, hsame]
      exact ih self (fun m hm hn => h m (List.mem_cons_of_mem md hm) hn)
    · simp only [hname, if_false]
      exact ih self (fun m hm hn => h m (List.mem_cons_of_mem md hm) hn)

theorem metadataLabelStep_fails (self : NLClassifier) (options : NLClassifierOptions)
    (hmeta : ∀ entries, self.model.output_tensor_metadata = some entries →
      entries.length = self.model.output_tensors.length →
      ∀ md, md ∈ entries → md.name = some options.output_score_tensor_name →
        (self.TrySetLabelFromMetadata (some md)).1.ok = false) :
    self.metadataLabelStep options = (false, self) := by
  unfold NLClassifier.metadataLabelStep
  cases hmd : self.model.output_tensor_metadata with
  | none => rfl
  | some entries =>
    by_cases hlen : entries.length = self.model.output_tensors.length
    · simp only [hlen, if_true]
      exact metadataLabelLoop_fails _ entries self (hmeta entries hmd hlen)
    · simp only [hlen, if_false]


theorem mem_valid_types (ty : TfLiteType) :
    ty ∈ valid_types ↔
      (ty = TfLiteType.kTfLiteUInt8 ∨ ty = TfLiteType.kTfLiteInt8 ∨
        ty = TfLiteType.kTfLiteInt16 ∨ ty = TfLiteType.kTfLiteFloat32 ∨
        ty = TfLiteType.kTfLiteFloat64) := by
  simp [valid_types]

theorem Initialize_validated (self : NLClassifier) (options : NLClassifierOptions)
    (input_tensor scores : TfLiteTensor)
    (hin : FindTensorWithNameOrIndex self.model.input_tensors
      self.model.input_tensor_metadata options.input_tensor_name
      options.input_tensor_index = some input_tensor)
    (hstr : input_tensor.type = TfLiteType.kTfLiteString)
    (hs : FindTensorWithNameOrIndex self.model.output_tensors
      self.model.output_tensor_metadata options.output_score_tensor_name
      options.output_score_tensor_index = some scores)
    (hvalid : scores.type ∈ valid_types) :
    self.Initialize options =
      if (({ self with options_ := options } : NLClassifier).metadataLabelStep options).1 then
        (OkStatus, (({ self with options_ := options } : NLClassifier).metadataLabelStep options).2)
      else
        ((({ self with options_ := options } : NLClassifier).metadataLabelStep options).2.labelTensorStep
            options scores,
          (({ self with options_ := options } : NLClassifier).metadataLabelStep options).2) := by
  simp [NLClassifier.Initialize, hin, hstr, hs, hvalid]

theorem Initialize_no_metadata_labels (self : NLClassifier) (options : NLClassifierOptions)
    (input_tensor scores : TfLiteTensor)
    (hin : FindTensorWithNameOrIndex self.model.input_tensors
      self.model.input_tensor_metadata options.input_tensor_name
      options.input_tensor_index = some input_tensor)
    (hstr : input_tensor.type = TfLiteType.kTfLiteString)
    (hs : FindTensorWithNameOrIndex self.model.output_tensors
      self.model.output_tensor_metadata options.output_score_tensor_name
      options.output_score_tensor_index = some scores)
    (hvalid : scores.type ∈ valid_types)
    (hmeta : ∀ entries, self.model.output_tensor_metadata = some entries →
      entries.length = self.model.output_tensors.length →
      ∀ md, md ∈ entries → md.name = some options.output_score_tensor_name →
        (self.TrySetLabelFromMetadata (some md)).1.ok = false) :
    self.Initialize options =
      (({ self with options_ := options } : NLClassifier).labelTensorStep options scores,
        { self with options_ := options }) := by
  have hstep : ({ self with options_ := options } : NLClassifier).metadataLabelStep options =
      (false, { self with options_ := options }) := by
    apply metadataLabelStep_fails
    intro entries hmd hlen md hmem hname
    have hc := TrySetLabelFromMetadata_status_congr
      ({ self with options_ := options } : NLClassifier) self (some md) rfl
    rw [hc]
    exact hmeta entries hmd hlen md hmem hname
  rw [Initialize_validated self options input_tensor scores hin hstr hs hvalid, hstep]
  simp

theorem labelTensorStep_cases (self : NLClassifier) (options : NLClassifierOptions)
    (scores : TfLiteTensor) :
    self.labelTensorStep options scores = OkStatus ∨
    self.labelTensorStep options scores = labelTypeMismatch scores := by
  unfold NLClassifier.labelTensorStep
  by_cases hnull : self.labels_vector_.isNone = true
  · simp only [hnull, if_true]
    cases FindTensorWithNameOrIndex self.model.output_tensors
        self.model.output_tensor_metadata options.output_label_tensor_name
        options.output_label_tensor_index with
    | none => left; rfl
    | some labels =>
      by_cases htype : labels.type = TfLiteType.kTfLiteString
      · left; simp [htype]
      · right; simp [htype]
  · left; simp [hnull]


theorem metadataLabelStep_guard (self : NLClassifier) (options : NLClassifierOptions)
    (hguard : self.model.output_tensor_metadata = none ∨
      ∃ entries, self.model.output_tensor_metadata = some entries ∧
        entries.length ≠ self.model.output_tensors.length) :
    self.metadataLabelStep options = (false, self) := by
  unfold NLClassifier.metadataLabelStep
  rcases hguard with h | ⟨entries, h, hlen⟩
  · simp [h]
  · simp [h, hlen]

theorem mismatch_message_ne (a b : String) :
    "Type mismatch for label tensor " ++ a ≠ "Type mismatch for score tensor " ++ b := by
  intro h
  have h2 := congrArg (fun s => s.data[18]?) h
  simp only [String.data_append] at h2
  rw [List.getElem?_append_left (by decide), List.getElem?_append_left (by decide)] at h2
  revert h2
  decide

theorem labelTypeMismatch_ne_scoreTypeMismatch (a b : TfLiteTensor) :
    labelTypeMismatch a ≠ scoreTypeMismatch b := by
  intro h
  have hm := congrArg Status.message h
  simp only [labelTypeMismatch, scoreTypeMismatch, CreateStatusWithPayload,
    String.append_assoc] at hm
  exact mismatch_message_ne _ _ hm

theorem OkStatus_ne_scoreTypeMismatch (b : TfLiteTensor) :
    OkStatus ≠ scoreTypeMismatch b := by
  intro h
  have hc := congrArg Status.code h
  simp [OkStatus, scoreTypeMismatch, CreateStatusWithPayload] at hc


/-! ## Results: building results -/

/-- Length of the sequence that `BuildResults` returns: for a score tensor of shape
[n] or [k, n], every sequence that is returned has length n, whatever the label source;
and one is returned when every label read stays within the label list or, without a
list, within the strings of the label tensor. -/
theorem BuildResults_length_eq_count (self : NLClassifier) (scores : TfLiteTensor)
    (labels : Option TfLiteTensor) (n : Nat)
    (hshape : scores.dims = [(n : Int)] ∨ ∃ k : Int, scores.dims = [k, (n : Int)]) :
    (∀ r, self.BuildResults scores labels = some r → r.length = n) ∧
    ((∀ lv, self.labels_vector_ = some lv → n ≤ lv.length) →
      (self.labels_vector_ = none → ∀ t, labels = some t → n ≤ t.strings.length) →
      ∃ r, self.BuildResults scores labels = some r ∧ r.length = n) := by
  have hcount := scoreCategories_of_shape scores n hshape
  constructor
  · intro r hr
    have hlen := BuildResults_count self scores labels r hr
    rw [hcount] at hlen
    have hcast : (n : Int) = (r.length : Int) := Option.some.inj hlen
    omega
  · intro hlist htensor
    exact BuildResults_defined self scores labels n hcount hlist htensor

/-- C1, evaluated where the code departs from it: the score tensor has shape [1, 3]
(rank 2, category dimension 3) and the label file of its metadata entry has two lines.
`Initialize` returns success with a label list of two entries; `BuildResults` then reads
the label list past its end at index 2, so it returns no sequence, and neither does
`Classify` on the empty text: there is no result of length 3. -/
theorem C1_no_sequence_for_short_label_list :
    floatScores3.dims = [1, 3] ∧
    ((newClassifier twoLineLabelModel).Initialize exampleOptions).1 = OkStatus ∧
    ((newClassifier twoLineLabelModel).Initialize exampleOptions).2.labels_vector_ =
      some ["neg", "pos"] ∧
    ((newClassifier twoLineLabelModel).Initialize exampleOptions).2.BuildResults
      floatScores3 none = none ∧
    ((newClassifier twoLineLabelModel).Initialize exampleOptions).2.Classify
      constantEngine "" = none ∧
    ¬ ∃ r, ((newClassifier twoLineLabelModel).Initialize exampleOptions).2.BuildResults
      floatScores3 none = some r ∧ r.length = 3 := by
  decide

/-- C2: when no label list was loaded and no label tensor is resolved, then for every
score tensor with n categories `BuildResults` returns a sequence whose labels are
exactly the decimal strings of 0, 1, ..., n-1 in that order. -/
theorem C2_fallback_labels (self : NLClassifier) (scores : TfLiteTensor) (n : Nat)
    (hcount : scoreCategories scores = some (n : Int))
    (hlv : self.labels_vector_ = none) :
    ∃ r, self.BuildResults scores none = some r ∧
      r.map (fun c => c.label) = (List.range n).map (fun i => toString i) :=
  BuildResults_positional self scores n hcount hlv

/-- Witness of C2: a three-category float output without labels yields the labels
"0", "1", "2", each paired with the float read at its position. -/
theorem C2_fallback_labels_witness :
    scoreCategories floatScores3 = some 3 ∧
    (newClassifier bareModel).BuildResults floatScores3 none =
      some [⟨"0", Score.float32 0⟩, ⟨"1", Score.float32 1⟩, ⟨"2", Score.float32 2⟩] ∧
    ∃ r, (newClassifier bareModel).BuildResults floatScores3 none = some r ∧
      r.map (fun c => c.label) = (List.range 3).map (fun i => toString i) :=
  ⟨by decide, by decide,
    C2_fallback_labels (newClassifier bareModel) floatScores3 3 (by decide) rfl⟩

/-! ## Results: initialization -/

/-- C3: if the Tensor Locator finds no input tensor, `Initialize` fails with
InputTensorNotFound; if it finds an input tensor whose type is not STRING, `Initialize`
fails with InvalidInputTensorType; whatever the output tensors and the metadata are. -/
theorem C3_input_validation (self : NLClassifier) (options : NLClassifierOptions) :
    (FindTensorWithNameOrIndex self.model.input_tensors self.model.input_tensor_metadata
        options.input_tensor_name options.input_tensor_index = none →
      (self.Initialize options).1.payload = some TfLiteSupportStatus.kInputTensorNotFoundError ∧
      (self.Initialize options).1.ok = false) ∧
    (∀ input_tensor,
      FindTensorWithNameOrIndex self.model.input_tensors self.model.input_tensor_metadata
        options.input_tensor_name options.input_tensor_index = some input_tensor →
      input_tensor.type ≠ TfLiteType.kTfLiteString →
      (self.Initialize options).1.payload =
        some TfLiteSupportStatus.kInvalidInputTensorTypeError ∧
      (self.Initialize options).1.ok = false) := by
  constructor
  · intro hnone
    simp [NLClassifier.Initialize, hnone, CreateStatusWithPayload, Status.ok]
  · intro input_tensor hfound htype
    simp [NLClassifier.Initialize, hfound, htype, CreateStatusWithPayload, Status.ok]

/-- Witness of C3: a model without input tensors, and a model whose input is a float
tensor. -/
theorem C3_input_validation_witness :
    ((newClassifier noInputModel).Initialize exampleOptions).1.payload =
      some TfLiteSupportStatus.kInputTensorNotFoundError ∧
    ((newClassifier floatInputModel).Initialize exampleOptions).1.payload =
      some TfLiteSupportStatus.kInvalidInputTensorTypeError :=
  ⟨((C3_input_validation (newClassifier noInputModel) exampleOptions).1 (by decide)).1,
    ((C3_input_validation (newClassifier floatInputModel) exampleOptions).2 floatInput
      (by decide) (by decide)).1⟩

/-- C4: with an input tensor found and of type STRING, `Initialize` fails with
OutputTensorNotFound if the Tensor Locator finds no score tensor; it fails with
InvalidOutputTensorType, through the score tensor diagnostic, if the score tensor is
found and its type is none of UInt8, Int8, Int16, Float32, Float64; and if the type is
one of those five the status is not the score tensor diagnostic: it is success or the
label tensor diagnostic of the later step. -/
theorem C4_score_validation (self : NLClassifier) (options : NLClassifierOptions)
    (input_tensor : TfLiteTensor)
    (hin : FindTensorWithNameOrIndex self.model.input_tensors
      self.model.input_tensor_metadata options.input_tensor_name
      options.input_tensor_index = some input_tensor)
    (hstr : input_tensor.type = TfLiteType.kTfLiteString) :
    (FindTensorWithNameOrIndex self.model.output_tensors self.model.output_tensor_metadata
        options.output_score_tensor_name options.output_score_tensor_index = none →
      (self.Initialize options).1.payload =
        some TfLiteSupportStatus.kOutputTensorNotFoundError ∧
      (self.Initialize options).1.ok = false) ∧
    (∀ scores,
      FindTensorWithNameOrIndex self.model.output_tensors self.model.output_tensor_metadata
        options.output_score_tensor_name options.output_score_tensor_index = some scores →
      ¬ (scores.type = TfLiteType.kTfLiteUInt8 ∨ scores.type = TfLiteType.kTfLiteInt8 ∨
        scores.type = TfLiteType.kTfLiteInt16 ∨ scores.type = TfLiteType.kTfLiteFloat32 ∨
        scores.type = TfLiteType.kTfLiteFloat64) →
      (self.Initialize options).1 = scoreTypeMismatch scores ∧
      (self.Initialize options).1.payload =
        some TfLiteSupportStatus.kInvalidOutputTensorTypeError ∧
      (self.Initialize options).1.ok = false) ∧
    (∀ scores,
      FindTensorWithNameOrIndex self.model.output_tensors self.model.output_tensor_metadata
        options.output_score_tensor_name options.output_score_tensor_index = some scores →
      (scores.type = TfLiteType.kTfLiteUInt8 ∨ scores.type = TfLiteType.kTfLiteInt8 ∨
        scores.type = TfLiteType.kTfLiteInt16 ∨ scores.type = TfLiteType.kTfLiteFloat32 ∨
        scores.type = TfLiteType.kTfLiteFloat64) →
      (self.Initialize options).1 ≠ scoreTypeMismatch scores ∧
      ((self.Initialize options).1 = OkStatus ∨
        (self.Initialize options).1 = labelTypeMismatch scores)) := by
  refine ⟨?_, ?_, ?_⟩
  · intro hnone
    simp [NLClassifier.Initialize, hin, hstr, hnone, CreateStatusWithPayload, Status.ok]
  · intro scores hs hbad
    have hnot : ¬ scores.type ∈ valid_types := fun hmem => hbad ((mem_valid_types _).1 hmem)
    have hst : (self.Initialize options).1 = scoreTypeMismatch scores := by
      simp [NLClassifier.Initialize, hin, hstr, hs, hnot]
    rw [hst]
    simp [scoreTypeMismatch, CreateStatusWithPayload, Status.ok]
  · intro scores hs hgood
    have hmem : scores.type ∈ valid_types := (mem_valid_types _).2 hgood
    have hcases : (self.Initialize options).1 = OkStatus ∨
        (self.Initialize options).1 = labelTypeMismatch scores := by
      rw [Initialize_validated self options input_tensor scores hin hstr hs hmem]
      by_cases hstep :
          (({ self with options_ := options } : NLClassifier).metadataLabelStep options).1 = true
      · left
        simp [hstep]
      · simp only [hstep, if_false]
        exact labelTensorStep_cases _ options scores
    refine ⟨?_, hcases⟩
    rcases hcases with h | h
    · rw [h]
      exact OkStatus_ne_scoreTypeMismatch scores
    · rw [h]
      exact labelTypeMismatch_ne_scoreTypeMismatch scores scores

/-- Witness of C4: a model without output tensors, a model with a boolean output, and
a model with a float output. -/
theorem C4_score_validation_witness :
    ((newClassifier noOutputModel).Initialize exampleOptions).1.payload =
      some TfLiteSupportStatus.kOutputTensorNotFoundError ∧
    ((newClassifier boolScoreModel).Initialize exampleOptions).1.payload =
      some TfLiteSupportStatus.kInvalidOutputTensorTypeError ∧
    ((newClassifier bareModel).Initialize exampleOptions).1 ≠ scoreTypeMismatch floatScores3 :=
  ⟨((C4_score_validation (newClassifier noOutputModel) exampleOptions textInput
      (by decide) (by decide)).1 (by decide)).1,
    ((C4_score_validation (newClassifier boolScoreModel) exampleOptions textInput
      (by decide) (by decide)).2.1 boolScores3 (by decide) (by decide)).2.1,
    ((C4_score_validation (newClassifier bareModel) exampleOptions textInput
      (by decide) (by decide)).2.2 floatScores3 (by decide) (by decide)).1⟩

/-- C5: with the input and score tensors passing validation, no label list before the
call and no label list from the metadata (metadata absent, count guard failing, or every
entry named as the configured score tensor failing), `Initialize` fails with
InvalidOutputTensorType if the Tensor Locator finds a label tensor whose type is not
STRING; if the label tensor found has type STRING, `Initialize` succeeds and no label
list is loaded. -/
theorem C5_label_tensor_validation (self : NLClassifier) (options : NLClassifierOptions)
    (input_tensor scores : TfLiteTensor)
    (hin : FindTensorWithNameOrIndex self.model.input_tensors
      self.model.input_tensor_metadata options.input_tensor_name
      options.input_tensor_index = some input_tensor)
    (hstr : input_tensor.type = TfLiteType.kTfLiteString)
    (hs : FindTensorWithNameOrIndex self.model.output_tensors
      self.model.output_tensor_metadata options.output_score_tensor_name
      options.output_score_tensor_index = some scores)
    (hvalid : scores.type = TfLiteType.kTfLiteUInt8 ∨ scores.type = TfLiteType.kTfLiteInt8 ∨
      scores.type = TfLiteType.kTfLiteInt16 ∨ scores.type = TfLiteType.kTfLiteFloat32 ∨
      scores.type = TfLiteType.kTfLiteFloat64)
    (hfresh : self.labels_vector_ = none)
    (hmeta : ∀ entries, self.model.output_tensor_metadata = some entries →
      entries.length = self.model.output_tensors.length →
      ∀ md, md ∈ entries → md.name = some options.output_score_tensor_name →
        (self.TrySetLabelFromMetadata (some md)).1.ok = false) :
    (∀ labels,
      FindTensorWithNameOrIndex self.model.output_tensors self.model.output_tensor_metadata
        options.output_label_tensor_name options.output_label_tensor_index = some labels →
      labels.type ≠ TfLiteType.kTfLiteString →
      (self.Initialize options).1.payload =
        some TfLiteSupportStatus.kInvalidOutputTensorTypeError ∧
      (self.Initialize options).1.ok = false) ∧
    (∀ labels,
      FindTensorWithNameOrIndex self.model.output_tensors self.model.output_tensor_metadata
        options.output_label_tensor_name options.output_label_tensor_index = some labels →
      labels.type = TfLiteType.kTfLiteString →
      (self.Initialize options).1 = OkStatus ∧
      (self.Initialize options).2.labels_vector_ = none) := by
  have hinit := Initialize_no_metadata_labels self options input_tensor scores hin hstr hs
    ((mem_valid_types _).2 hvalid) hmeta
  constructor
  · intro labels hl htype
    rw [hinit]
    simp [NLClassifier.labelTensorStep, hfresh, hl, htype, labelTypeMismatch,
      CreateStatusWithPayload, Status.ok]
  · intro labels hl htype
    rw [hinit]
    simp [NLClassifier.labelTensorStep, hfresh, hl, htype]

/-- Witness of C5: an int32 tensor and a string tensor at the selected label position. -/
theorem C5_label_tensor_validation_witness :
    ((newClassifier intLabelModel).Initialize labelTensorOptions).1.payload =
      some TfLiteSupportStatus.kInvalidOutputTensorTypeError ∧
    ((newClassifier stringLabelModel).Initialize labelTensorOptions).1 = OkStatus ∧
    ((newClassifier stringLabelModel).Initialize labelTensorOptions).2.labels_vector_ = none :=
  ⟨((C5_label_tensor_validation (newClassifier intLabelModel) labelTensorOptions textInput
      floatScores3 (by decide) (by decide) (by decide) (by decide) rfl
      (fun _ h => by cases h)).1 intLabels3 (by decide) (by decide)).1,
    (C5_label_tensor_validation (newClassifier stringLabelModel) labelTensorOptions textInput
      floatScores3 (by decide) (by decide) (by decide) (by decide) rfl
      (fun _ h => by cases h)).2 labelStrings3 (by decide) (by decide)⟩

/-- C6: with the input tensor found and of type STRING, the score tensor found with a
valid type, no label list before the call, no label list from the metadata (absent,
skipped or failed) and no label tensor found, `Initialize` returns success with no
label list loaded, and `BuildResults` on the initialized classifier, given no label
tensor, labels the n categories of a score tensor "0", "1", ..., "n-1"; so does
`Postprocess` on output tensors among which it locates that score tensor and no label
tensor. -/
theorem C6_degraded_mode (self : NLClassifier) (options : NLClassifierOptions)
    (input_tensor scores : TfLiteTensor) (call_scores : TfLiteTensor) (n : Nat)
    (output_tensors : List TfLiteTensor) (text : String)
    (hin : FindTensorWithNameOrIndex self.model.input_tensors
      self.model.input_tensor_metadata options.input_tensor_name
      options.input_tensor_index = some input_tensor)
    (hstr : input_tensor.type = TfLiteType.kTfLiteString)
    (hs : FindTensorWithNameOrIndex self.model.output_tensors
      self.model.output_tensor_metadata options.output_score_tensor_name
      options.output_score_tensor_index = some scores)
    (hvalid : scores.type = TfLiteType.kTfLiteUInt8 ∨ scores.type = TfLiteType.kTfLiteInt8 ∨
      scores.type = TfLiteType.kTfLiteInt16 ∨ scores.type = TfLiteType.kTfLiteFloat32 ∨
      scores.type = TfLiteType.kTfLiteFloat64)
    (hfresh : self.labels_vector_ = none)
    (hmeta : ∀ entries, self.model.output_tensor_metadata = some entries →
      entries.length = self.model.output_tensors.length →
      ∀ md, md ∈ entries → md.name = some options.output_score_tensor_name →
        (self.TrySetLabelFromMetadata (some md)).1.ok = false)
    (hnolabel : FindTensorWithNameOrIndex self.model.output_tensors
      self.model.output_tensor_metadata options.output_label_tensor_name
      options.output_label_tensor_index = none)
    (hcount : scoreCategories call_scores = some (n : Int)) :
    (self.Initialize options).1 = OkStatus ∧
    (self.Initialize options).2.labels_vector_ = none ∧
    (∃ r, (self.Initialize options).2.BuildResults call_scores none = some r ∧
      r.map (fun c => c.label) = (List.range n).map (fun i => toString i)) ∧
    (FindTensorWithNameOrIndex output_tensors self.model.output_tensor_metadata
        options.output_score_tensor_name options.output_score_tensor_index
          = some call_scores →
      FindTensorWithNameOrIndex output_tensors self.model.input_tensor_metadata
        options.output_label_tensor_name options.output_label_tensor_index = none →
      ∃ r, (self.Initialize options).2.Postprocess output_tensors text = some r ∧
        r.map (fun c => c.label) = (List.range n).map (fun i => toString i)) := by
  have hinit := Initialize_no_metadata_labels self options input_tensor scores hin hstr hs
    ((mem_valid_types _).2 hvalid) hmeta
  have hafter : (self.Initialize options).2 = { self with options_ := options } := by
    rw [hinit]
  have hstate : (self.Initialize options).2.labels_vector_ = none := by
    rw [hafter]
    exact hfresh
  have hbuild := BuildResults_positional (self.Initialize options).2 call_scores n hcount hstate
  refine ⟨?_, hstate, hbuild, ?_⟩
  · rw [hinit]
    simp [NLClassifier.labelTensorStep, hfresh, hnolabel]
  · intro hcs hcl
    have hpost : (self.Initialize options).2.Postprocess output_tensors text =
        (self.Initialize options).2.BuildResults call_scores none := by
      rw [hafter]
      simp only [NLClassifier.Postprocess, hcs, hcl]
    rw [hpost]
    exact hbuild

/-- Witness of C6: a model without metadata and without label tensor. -/
theorem C6_degraded_mode_witness :
    ((newClassifier bareModel).Initialize exampleOptions).1 = OkStatus ∧
    ((newClassifier bareModel).Initialize exampleOptions).2.labels_vector_ = none ∧
    (∃ r, ((newClassifier bareModel).Initialize exampleOptions).2.BuildResults floatScores3 none
        = some r ∧
      r.map (fun c => c.label) = (List.range 3).map (fun i => toString i)) ∧
    (∃ r, ((newClassifier bareModel).Initialize exampleOptions).2.Postprocess [floatScores3]
        "hello" = some r ∧
      r.map (fun c => c.label) = (List.range 3).map (fun i => toString i)) :=
  have h := C6_degraded_mode (newClassifier bareModel) exampleOptions textInput floatScores3
    floatScores3 3 [floatScores3] "hello" (by decide) (by decide) (by decide) (by decide) rfl
    (fun _ h => by cases h) (by decide) (by decide)
  ⟨h.1, h.2.1, h.2.2.1, h.2.2.2 (by decide) (by decide)⟩

/-- C7: when the output tensor metadata list is absent or its length differs from the
number of output tensors, the metadata step of `Initialize` hands no entry to
`TrySetLabelFromMetadata`: it reports no labels and leaves the classifier as it is, so
the label list after `Initialize` is the one before it (unset when it was unset); and
when the input and score tensors pass validation the returned status is exactly that of
the label tensor check. -/
theorem C7_count_guard (self : NLClassifier) (options : NLClassifierOptions)
    (hguard : self.model.output_tensor_metadata = none ∨
      ∃ entries, self.model.output_tensor_metadata = some entries ∧
        entries.length ≠ self.model.output_tensors.length) :
    ({ self with options_ := options } : NLClassifier).metadataLabelStep options =
      (false, { self with options_ := options }) ∧
    (self.Initialize options).2 = { self with options_ := options } ∧
    (self.Initialize options).2.labels_vector_ = self.labels_vector_ ∧
    (∀ input_tensor scores,
      FindTensorWithNameOrIndex self.model.input_tensors self.model.input_tensor_metadata
        options.input_tensor_name options.input_tensor_index = some input_tensor →
      input_tensor.type = TfLiteType.kTfLiteString →
      FindTensorWithNameOrIndex self.model.output_tensors self.model.output_tensor_metadata
        options.output_score_tensor_name options.output_score_tensor_index = some scores →
      (scores.type = TfLiteType.kTfLiteUInt8 ∨ scores.type = TfLiteType.kTfLiteInt8 ∨
        scores.type = TfLiteType.kTfLiteInt16 ∨ scores.type = TfLiteType.kTfLiteFloat32 ∨
        scores.type = TfLiteType.kTfLiteFloat64) →
      (self.Initialize options).1 =
        ({ self with options_ := options } : NLClassifier).labelTensorStep options scores) := by
  have hstep := metadataLabelStep_guard ({ self with options_ := options } : NLClassifier)
    options hguard
  have hstate : (self.Initialize options).2 = { self with options_ := options } := by
    unfold NLClassifier.Initialize
    simp only [hstep]
    split
    · rfl
    · split
      · rfl
      · split
        · rfl
        · split <;> rfl
  refine ⟨hstep, hstate, ?_, ?_⟩
  · rw [hstate]
  · intro input_tensor scores hin hstr hs hvalid
    rw [Initialize_validated self options input_tensor scores hin hstr hs
      ((mem_valid_types _).2 hvalid), hstep]
    simp

/-- Witness of C7: two metadata entries for one output tensor. The entry named as the
configured score tensor would yield labels, yet `Initialize` leaves the label list
unset and returns the status of the label tensor check, which is success. -/
theorem C7_count_guard_witness :
    ((newClassifier staleMetadataModel).TrySetLabelFromMetadata
      (some (labelledEntry "OUTPUT_SCORE"))).1.ok = true ∧
    ((newClassifier staleMetadataModel).Initialize exampleOptions).2.labels_vector_ = none ∧
    ((newClassifier staleMetadataModel).Initialize exampleOptions).1 = OkStatus :=
  have h := C7_count_guard (newClassifier staleMetadataModel) exampleOptions
    (Or.inr ⟨_, rfl, by decide⟩)
  ⟨by decide, h.2.2.1,
    (h.2.2.2 textInput floatScores3 (by decide) (by decide) (by decide) (by decide)).trans
      (by decide)⟩

/-- C8, evaluated where the code departs from it: the single output tensor is named
"probability" and its metadata entry, also named "probability", carries a label file
that `TrySetLabelFromMetadata` loads. The configured score tensor name matches no entry,
so the Tensor Locator returns this tensor by index; the loop of `Initialize` compares
entry names with the configured name, tries no entry, and returns success with no
label list, so that classification labels the categories "0", "1", "2". -/
theorem C8_index_resolved_score_tensor_not_tried :
    FindTensorWithNameOrIndex indexResolvedModel.output_tensors
      indexResolvedModel.output_tensor_metadata exampleOptions.output_score_tensor_name
      exampleOptions.output_score_tensor_index = some floatScores3 ∧
    floatScores3.name = "probability" ∧
    indexResolvedModel.output_tensor_metadata = some [labelledEntry "probability"] ∧
    (labelledEntry "probability").name = some floatScores3.name ∧
    ((newClassifier indexResolvedModel).TrySetLabelFromMetadata
      (some (labelledEntry "probability"))).1 = OkStatus ∧
    ((newClassifier indexResolvedModel).TrySetLabelFromMetadata
      (some (labelledEntry "probability"))).2.labels_vector_ = some ["neg", "neu", "pos"] ∧
    ((newClassifier indexResolvedModel).Initialize exampleOptions).1 = OkStatus ∧
    ((newClassifier indexResolvedModel).Initialize exampleOptions).2.labels_vector_ = none ∧
    (((newClassifier indexResolvedModel).Initialize exampleOptions).2.Postprocess
      [floatScores3] "hello").map (fun r => r.map (fun c => c.label)) =
        some ["0", "1", "2"] := by
  decide

/-- C9: `TrySetLabelFromMetadata` fails with MetadataNotFound when the tensor metadata
is absent; with MissingLabels when the metadata has no associated-file list or an empty
one; with MissingLabels when the first associated file is not of the tensor-axis-labels
type; with MissingLabels when the first associated file cannot be extracted; and it
succeeds exactly when none of these four conditions holds. -/
theorem C9_label_resolver_errors (self : NLClassifier) (metadata : Option TensorMetadata) :
    (metadata = none →
      (self.TrySetLabelFromMetadata metadata).1.payload =
        some TfLiteSupportStatus.kMetadataNotFoundError ∧
      (self.TrySetLabelFromMetadata metadata).1.ok = false) ∧
    (∀ md, metadata = some md →
      (md.associated_files = none ∨ md.associated_files = some []) →
      (self.TrySetLabelFromMetadata metadata).1.payload =
        some TfLiteSupportStatus.kMetadataMissingLabelsError ∧
      (self.TrySetLabelFromMetadata metadata).1.ok = false) ∧
    (∀ md f fs, metadata = some md → md.associated_files = some (f :: fs) →
      f.type ≠ AssociatedFileType.TENSOR_AXIS_LABELS →
      (self.TrySetLabelFromMetadata metadata).1.payload =
        some TfLiteSupportStatus.kMetadataMissingLabelsError ∧
      (self.TrySetLabelFromMetadata metadata).1.ok = false) ∧
    (∀ md f fs, metadata = some md → md.associated_files = some (f :: fs) →
      GetAssociatedFile self.model f.name = none →
      (self.TrySetLabelFromMetadata metadata).1.payload =
        some TfLiteSupportStatus.kMetadataMissingLabelsError ∧
      (self.TrySetLabelFromMetadata metadata).1.ok = false) ∧
    ((self.TrySetLabelFromMetadata metadata).1.ok = true ↔
      (¬ metadata = none ∧
       ¬ (∃ md, metadata = some md ∧
          (md.associated_files = none ∨ md.associated_files = some [])) ∧
       ¬ (∃ md f fs, metadata = some md ∧ md.associated_files = some (f :: fs) ∧
          f.type ≠ AssociatedFileType.TENSOR_AXIS_LABELS) ∧
       ¬ (∃ md f fs, metadata = some md ∧ md.associated_files = some (f :: fs) ∧
          GetAssociatedFile self.model f.name = none))) := by
  refine ⟨?_, ?_, ?_, ?_, ?_⟩
  · intro h
    subst h
    simp [TrySetLabelFromMetadata_absent, CreateStatusWithPayload, Status.ok]
  · intro md h hfiles
    subst h
    simp [TrySetLabelFromMetadata_no_files self md hfiles, CreateStatusWithPayload, Status.ok]
  · intro md f fs h hfiles htype
    subst h
    simp [TrySetLabelFromMetadata_files self md f fs hfiles, htype, CreateStatusWithPayload,
      Status.ok]
  · intro md f fs h hfiles hbuf
    subst h
    rw [TrySetLabelFromMetadata_files self md f fs hfiles]
    by_cases htype : f.type = AssociatedFileType.TENSOR_AXIS_LABELS
    · simp [htype, hbuf, CreateStatusWithPayload, Status.ok]
    · simp [htype, CreateStatusWithPayload, Status.ok]
  · cases metadata with
    | none => simp [TrySetLabelFromMetadata_absent, CreateStatusWithPayload, Status.ok]
    | some md =>
      cases hfiles : md.associated_files with
      | none =>
        simp [TrySetLabelFromMetadata_no_files self md (Or.inl hfiles), hfiles,
          CreateStatusWithPayload, Status.ok]
      | some files =>
        cases files with
        | nil =>
          simp [TrySetLabelFromMetadata_no_files self md (Or.inr hfiles), hfiles,
            CreateStatusWithPayload, Status.ok]
        | cons f fs =>
          rw [TrySetLabelFromMetadata_files self md f fs hfiles]
          by_cases htype : f.type = AssociatedFileType.TENSOR_AXIS_LABELS
          · cases hbuf : GetAssociatedFile self.model f.name with
            | none =>
              simp [htype, hfiles, hbuf, CreateStatusWithPayload, Status.ok]
            | some buf =>
              simp [htype, hfiles, hbuf, OkStatus, Status.ok]
          · simp [htype, hfiles, CreateStatusWithPayload, Status.ok]

/-- Witness of C9: the four failures and the success on concrete metadata entries. -/
theorem C9_label_resolver_errors_witness :
    ((newClassifier resolverModel).TrySetLabelFromMetadata none).1.payload =
      some TfLiteSupportStatus.kMetadataNotFoundError ∧
    ((newClassifier resolverModel).TrySetLabelFromMetadata
      (some ⟨some "OUTPUT_SCORE", some []⟩)).1.payload =
        some TfLiteSupportStatus.kMetadataMissingLabelsError ∧
    ((newClassifier resolverModel).TrySetLabelFromMetadata
      (some ⟨some "OUTPUT_SCORE",
        some [⟨"labels.txt", AssociatedFileType.VOCABULARY⟩]⟩)).1.payload =
        some TfLiteSupportStatus.kMetadataMissingLabelsError ∧
    ((newClassifier resolverModel).TrySetLabelFromMetadata
      (some ⟨some "OUTPUT_SCORE",
        some [⟨"missing.txt", AssociatedFileType.TENSOR_AXIS_LABELS⟩]⟩)).1.payload =
        some TfLiteSupportStatus.kMetadataMissingLabelsError ∧
    ((newClassifier resolverModel).TrySetLabelFromMetadata
      (some (labelledEntry "OUTPUT_SCORE"))).1.ok = true :=
  ⟨((C9_label_resolver_errors (newClassifier resolverModel) none).1 rfl).1,
    ((C9_label_resolver_errors (newClassifier resolverModel)
      (some ⟨some "OUTPUT_SCORE", some []⟩)).2.1 _ rfl (Or.inr rfl)).1,
    ((C9_label_resolver_errors (newClassifier resolverModel)
      (some ⟨some "OUTPUT_SCORE", some [⟨"labels.txt", AssociatedFileType.VOCABULARY⟩]⟩)).2.2.1
        _ _ _ rfl rfl (by decide)).1,
    ((C9_label_resolver_errors (newClassifier resolverModel)
      (some ⟨some "OUTPUT_SCORE",
        some [⟨"missing.txt", AssociatedFileType.TENSOR_AXIS_LABELS⟩]⟩)).2.2.2.1
        _ _ _ rfl rfl (by decide)).1,
    by decide⟩

/-! ## Results: label source priority -/

/-- C10: whenever `BuildResults` returns a sequence, the sequence has one result per
category index and, for every index i below the count, the label of result i is the
i-th entry of the loaded label list if a label list is present (whatever the label
tensor); otherwise the string at index i of the label tensor if one was resolved;
otherwise the decimal string of i. -/
theorem C10_label_priority (self : NLClassifier) (scores : TfLiteTensor)
    (labels : Option TfLiteTensor) (r : List Category)
    (hr : self.BuildResults scores labels = some r) (i : Nat) (hi : i < r.length) :
    scoreCategories scores = some (r.length : Int) ∧
    ∃ c, r[i]? = some c ∧
      (∀ labels_vector, self.labels_vector_ = some labels_vector →
        labels_vector[i]? = some c.label) ∧
      (self.labels_vector_ = none → ∀ t, labels = some t →
        GetStringAtIndex t i = some c.label) ∧
      (self.labels_vector_ = none → labels = none → c.label = toString i) := by
  have hcount := BuildResults_count self scores labels r hr
  refine ⟨hcount, ?_⟩
  rw [BuildResults_eq_loop self scores labels r.length hcount] at hr
  have hget := buildLoop_getElem _ _ r hr i hi
  have hsome : r[i]? = some r[i] := List.getElem?_eq_getElem hi
  refine ⟨r[i], hsome, ?_, ?_, ?_⟩
  · intro lv hlv
    rw [hsome] at hget
    simp only [NLClassifier.labelAt, hlv, Option.isNone_some, Bool.false_and] at hget
    cases hl : lv[i]? with
    | none => simp [hl] at hget
    | some l =>
      simp [hl] at hget
      simp [hget]
  · intro hlv t hlab
    rw [hsome] at hget
    simp only [NLClassifier.labelAt, hlv, hlab] at hget
    cases hl : GetStringAtIndex t i with
    | none => simp [hl] at hget
    | some l =>
      simp [hl] at hget
      simp [hget]
  · intro hlv hlab
    rw [hsome] at hget
    simp [NLClassifier.labelAt, hlv, hlab] at hget
    simp [hget]

/-- Witness of C10: with a loaded label list and a label tensor both present, result 1
carries the list entry "neutral", not the tensor string "neu". -/
theorem C10_label_priority_witness :
    threeLabelClassifier.BuildResults floatScores3 (some labelStrings3) =
      some [⟨"negative", Score.float32 0⟩, ⟨"neutral", Score.float32 1⟩,
        ⟨"positive", Score.float32 2⟩] ∧
    GetStringAtIndex labelStrings3 1 = some "neu" ∧
    ∃ c, [(⟨"negative", Score.float32 0⟩ : Category), ⟨"neutral", Score.float32 1⟩,
        ⟨"positive", Score.float32 2⟩][1]? = some c ∧
      (∀ labels_vector, threeLabelClassifier.labels_vector_ = some labels_vector →
        labels_vector[1]? = some c.label) ∧
      (threeLabelClassifier.labels_vector_ = none → ∀ t, some labelStrings3 = some t →
        GetStringAtIndex t 1 = some c.label) ∧
      (threeLabelClassifier.labels_vector_ = none → some labelStrings3 = none →
        c.label = toString 1) :=
  ⟨by decide, by decide,
    (C10_label_priority threeLabelClassifier floatScores3 (some labelStrings3)
      [⟨"negative", Score.float32 0⟩, ⟨"neutral", Score.float32 1⟩,
        ⟨"positive", Score.float32 2⟩] (by decide) 1 (by decide)).2⟩

/-! ## Results: order and decoding of scores -/

theorem BuildResults_getElem (self : NLClassifier) (scores : TfLiteTensor)
    (labels : Option TfLiteTensor) (r : List Category)
    (hr : self.BuildResults scores labels = some r) (i : Nat) (hi : i < r.length) :
    ∃ c, r[i]? = some c ∧ c.score = scoreAt scores i ∧
      self.labelAt labels i = some c.label := by
  have hcount := BuildResults_count self scores labels r hr
  rw [BuildResults_eq_loop self scores labels r.length hcount] at hr
  have hget := buildLoop_getElem _ _ r hr i hi
  have hsome : r[i]? = some r[i] := List.getElem?_eq_getElem hi
  rw [hsome] at hget
  cases hl : self.labelAt labels i with
  | none => simp [hl] at hget
  | some l =>
    simp only [hl, Option.map_some', Option.some.injEq] at hget
    exact ⟨r[i], hsome, by rw [hget], by rw [hget]⟩

/-- C14: whenever `BuildResults` returns a sequence for a score tensor, the sequence
has one element per category and, for every index i below the count, element i
carries the score read at position i of the score tensor (dequantized, float or
double read, each at index i) paired with the label computed for position i; the
order does not depend on the score values. -/
theorem C14_tensor_index_order (self : NLClassifier) (scores : TfLiteTensor)
    (labels : Option TfLiteTensor) (r : List Category)
    (hr : self.BuildResults scores labels = some r) (i : Nat) (hi : i < r.length) :
    scoreCategories scores = some (r.length : Int) ∧
    ∃ c, r[i]? = some c ∧
      c.score = scoreAt scores i ∧
      (c.score = Score.dequantized i ∨ c.score = Score.float32 i ∨
        c.score = Score.float64 i) ∧
      self.labelAt labels i = some c.label := by
  refine ⟨BuildResults_count self scores labels r hr, ?_⟩
  obtain ⟨c, hc, hscore, hlabel⟩ := BuildResults_getElem self scores labels r hr i hi
  refine ⟨c, hc, hscore, ?_, hlabel⟩
  rw [hscore]
  simp only [scoreAt, Dequantize]
  by_cases hq : (decide (scores.type = TfLiteType.kTfLiteUInt8) ||
      decide (scores.type = TfLiteType.kTfLiteInt8) ||
      decide (scores.type = TfLiteType.kTfLiteInt16)) = true
  · left
    simp only [hq, if_true]
  · by_cases hf : scores.type = TfLiteType.kTfLiteFloat32
    · right; left
      simp only [hq, hf, if_true]
      simp
    · right; right
      simp only [hq, hf, if_false]
      simp

/-- Witness of C14: three float scores with a loaded label list; element 2 pairs the
third label with the read at position 2. -/
theorem C14_tensor_index_order_witness :
    threeLabelClassifier.BuildResults floatScores3 none =
      some [⟨"negative", Score.float32 0⟩, ⟨"neutral", Score.float32 1⟩,
        ⟨"positive", Score.float32 2⟩] ∧
    ∃ c, [(⟨"negative", Score.float32 0⟩ : Category), ⟨"neutral", Score.float32 1⟩,
        ⟨"positive", Score.float32 2⟩][2]? = some c ∧
      c.score = scoreAt floatScores3 2 ∧
      (c.score = Score.dequantized 2 ∨ c.score = Score.float32 2 ∨
        c.score = Score.float64 2) ∧
      threeLabelClassifier.labelAt none 2 = some c.label :=
  ⟨by decide,
    (C14_tensor_index_order threeLabelClassifier floatScores3 none
      [⟨"negative", Score.float32 0⟩, ⟨"neutral", Score.float32 1⟩,
        ⟨"positive", Score.float32 2⟩] (by decide) 2 (by decide)).2⟩

/-- C16: for a score tensor whose type is one of the five that `Initialize` accepts,
the score of every result is produced by the dequantizer if and only if the type is
UInt8, Int8 or Int16; for Float32 it is the float read, for Float64 the double read;
and the double read is reached by Float64 only, the float read by Float32 only. -/
theorem C16_decoder_selection (self : NLClassifier) (scores : TfLiteTensor)
    (labels : Option TfLiteTensor) (r : List Category)
    (hvalid : scores.type = TfLiteType.kTfLiteUInt8 ∨ scores.type = TfLiteType.kTfLiteInt8 ∨
      scores.type = TfLiteType.kTfLiteInt16 ∨ scores.type = TfLiteType.kTfLiteFloat32 ∨
      scores.type = TfLiteType.kTfLiteFloat64)
    (hr : self.BuildResults scores labels = some r) (i : Nat) (hi : i < r.length) :
    ∃ c, r[i]? = some c ∧
      (c.score = Dequantize scores i ↔
        (scores.type = TfLiteType.kTfLiteUInt8 ∨ scores.type = TfLiteType.kTfLiteInt8 ∨
          scores.type = TfLiteType.kTfLiteInt16)) ∧
      (c.score = Score.float32 i ↔ scores.type = TfLiteType.kTfLiteFloat32) ∧
      (c.score = Score.float64 i ↔ scores.type = TfLiteType.kTfLiteFloat64) := by
  obtain ⟨c, hc, hscore, _⟩ := BuildResults_getElem self scores labels r hr i hi
  refine ⟨c, hc, ?_⟩
  rw [hscore]
  rcases hvalid with h | h | h | h | h <;> simp [scoreAt, Dequantize, h]

/-- Witness of C16: a UInt8 tensor is dequantized, a Float64 tensor is read as double. -/
theorem C16_decoder_selection_witness :
    (newClassifier bareModel).BuildResults quantizedScores3 none =
      some [⟨"0", Score.dequantized 0⟩, ⟨"1", Score.dequantized 1⟩,
        ⟨"2", Score.dequantized 2⟩] ∧
    (newClassifier bareModel).BuildResults doubleScores2 none =
      some [⟨"0", Score.float64 0⟩, ⟨"1", Score.float64 1⟩] ∧
    (∃ c, [(⟨"0", Score.dequantized 0⟩ : Category), ⟨"1", Score.dequantized 1⟩,
        ⟨"2", Score.dequantized 2⟩][1]? = some c ∧
      (c.score = Dequantize quantizedScores3 1 ↔
        (quantizedScores3.type = TfLiteType.kTfLiteUInt8 ∨
          quantizedScores3.type = TfLiteType.kTfLiteInt8 ∨
          quantizedScores3.type = TfLiteType.kTfLiteInt16)) ∧
      (c.score = Score.float32 1 ↔ quantizedScores3.type = TfLiteType.kTfLiteFloat32) ∧
      (c.score = Score.float64 1 ↔ quantizedScores3.type = TfLiteType.kTfLiteFloat64)) :=
  ⟨by decide, by decide,
    C16_decoder_selection (newClassifier bareModel) quantizedScores3 none
      [⟨"0", Score.dequantized 0⟩, ⟨"1", Score.dequantized 1⟩, ⟨"2", Score.dequantized 2⟩]
      (Or.inl rfl) (by decide) 1 (by decide)⟩

/-! ## Facts about the metadata loop -/

theorem TrySetLabelFromMetadata_success (self : NLClassifier)
    (metadata : Option TensorMetadata)
    (h : (self.TrySetLabelFromMetadata metadata).1.ok = true) :
    ∃ md f fs label_buffer, metadata = some md ∧ md.associated_files = some (f :: fs) ∧
      f.type = AssociatedFileType.TENSOR_AXIS_LABELS ∧
      GetAssociatedFile self.model f.name = some label_buffer ∧
      self.TrySetLabelFromMetadata metadata =
        (OkStatus, { self with labels_vector_ := some (LoadVocabFromBuffer label_buffer) }) := by
  cases metadata with
  | none => simp [TrySetLabelFromMetadata_absent, CreateStatusWithPayload, Status.ok] at h
  | some md =>
    cases hfiles : md.associated_files with
    | none =>
      simp [TrySetLabelFromMetadata_no_files self md (Or.inl hfiles),
        CreateStatusWithPayload, Status.ok] at h
    | some files =>
      cases files with
      | nil =>
        simp [TrySetLabelFromMetadata_no_files self md (Or.inr hfiles),
          CreateStatusWithPayload, Status.ok] at h
      | cons f fs =>
        rw [TrySetLabelFromMetadata_files self md f fs hfiles] at h ⊢
        by_cases htype : f.type = AssociatedFileType.TENSOR_AXIS_LABELS
        · cases hbuf : GetAssociatedFile self.model f.name with
          | none => simp [htype, hbuf, CreateStatusWithPayload, Status.ok] at h
          | some buf =>
            exact ⟨md, f, fs, buf, rfl, hfiles, htype, hbuf, by simp [htype, hbuf]⟩
        · simp [htype, CreateStatusWithPayload, Status.ok] at h

theorem TrySetLabelFromMetadata_labels_congr (a b : NLClassifier)
    (metadata : Option TensorMetadata) (hm : a.model = b.model)
    (hl : a.labels_vector_ = b.labels_vector_) :
    (a.TrySetLabelFromMetadata metadata).2.labels_vector_ =
      (b.TrySetLabelFromMetadata metadata).2.labels_vector_ := by
  by_cases hok : (b.TrySetLabelFromMetadata metadata).1.ok = true
  · have hoka : (a.TrySetLabelFromMetadata metadata).1.ok = true := by
      rw [TrySetLabelFromMetadata_status_congr a b metadata hm]
      exact hok
    obtain ⟨md, f, fs, buf, hmd, hfiles, _, hbuf, heq⟩ :=
      TrySetLabelFromMetadata_success b metadata hok
    obtain ⟨md2, f2, fs2, buf2, hmd2, hfiles2, _, hbuf2, heq2⟩ :=
      TrySetLabelFromMetadata_success a metadata hoka
    rw [heq, heq2]
    rw [hmd] at hmd2
    cases hmd2
    rw [hfiles] at hfiles2
    cases hfiles2
    rw [hm, hbuf] at hbuf2
    cases hbuf2
    rfl
  · have hfb : (b.TrySetLabelFromMetadata metadata).1.ok = false := by simpa using hok
    have hfa : (a.TrySetLabelFromMetadata metadata).1.ok = false := by
      rw [TrySetLabelFromMetadata_status_congr a b metadata hm]
      exact hfb
    rw [TrySetLabelFromMetadata_unchanged a metadata hfa,
      TrySetLabelFromMetadata_unchanged b metadata hfb]
    exact hl

theorem metadataLabelLoop_first_success (score_name : String) :
    ∀ (pre : List TensorMetadata) (self : NLClassifier) (m : TensorMetadata)
      (post : List TensorMetadata),
      (∀ x, x ∈ pre → x.name = some score_name →
        (self.TrySetLabelFromMetadata (some x)).1.ok = false) →
      m.name = some score_name →
      (self.TrySetLabelFromMetadata (some m)).1.ok = true →
      self.metadataLabelLoop score_name (pre ++ m :: post) =
        (true, (self.TrySetLabelFromMetadata (some m)).2) := by
  intro pre
  induction pre with
  | nil =>
    intro self m post _ hname hok
    simp [NLClassifier.metadataLabelLoop, hname, hok]
  | cons x rest ih =>
    intro self m post hpre hname hok
    simp only [List.cons_append]
    unfold NLClassifier.metadataLabelLoop
    by_cases hx : x.name = some score_name
    · have hfail := hpre x (List.mem_cons_self x rest) hx
      have hsame := TrySetLabelFromMetadata_unchanged self (some x) hfail
      simp only [hx, if_true, hfail, hsame]
      exact ih self m post (fun y hy hn => hpre y (List.mem_cons_of_mem x hy) hn) hname hok
    · simp only [hx, if_false]
      exact ih self m post (fun y hy hn => hpre y (List.mem_cons_of_mem x hy) hn) hname hok

theorem metadataLabelLoop_true (score_name : String) :
    ∀ (entries : List TensorMetadata) (self : NLClassifier),
      (self.metadataLabelLoop score_name entries).1 = true →
      ∃ m, m ∈ entries ∧ m.name = some score_name ∧
        (self.TrySetLabelFromMetadata (some m)).1.ok = true ∧
        (self.metadataLabelLoop score_name entries).2 =
          (self.TrySetLabelFromMetadata (some m)).2 := by
  intro entries
  induction entries with
  | nil => intro self h; simp [NLClassifier.metadataLabelLoop] at h
  | cons x rest ih =>
    intro self h
    unfold NLClassifier.metadataLabelLoop at h ⊢
    by_cases hx : x.name = some score_name
    · by_cases hok : (self.TrySetLabelFromMetadata (some x)).1.ok = true
      · exact ⟨x, List.mem_cons_self x rest, hx, hok, by simp [hx, hok]⟩
      · have hfail : (self.TrySetLabelFromMetadata (some x)).1.ok = false := by
          simpa using hok
        have hsame := TrySetLabelFromMetadata_unchanged self (some x) hfail
        simp only [hx, if_true, hfail, hsame] at h ⊢
        obtain ⟨m, hm, hn, hokm, hst⟩ := ih self h
        exact ⟨m, List.mem_cons_of_mem x hm, hn, hokm, by simpa using hst⟩
    · simp only [hx, if_false] at h ⊢
      obtain ⟨m, hm, hn, hokm, hst⟩ := ih self h
      exact ⟨m, List.mem_cons_of_mem x hm, hn, hokm, hst⟩

theorem metadataLabelLoop_succeeds (score_name : String) :
    ∀ (entries : List TensorMetadata) (self : NLClassifier) (m : TensorMetadata),
      m ∈ entries → m.name = some score_name →
      (self.TrySetLabelFromMetadata (some m)).1.ok = true →
      (self.metadataLabelLoop score_name entries).1 = true := by
  intro entries
  induction entries with
  | nil => intro self m hm; simp at hm
  | cons x rest ih =>
    intro self m hm hn hok
    unfold NLClassifier.metadataLabelLoop
    by_cases hx : x.name = some score_name
    · by_cases hokx : (self.TrySetLabelFromMetadata (some x)).1.ok = true
      · simp [hx, hokx]
      · have hfail : (self.TrySetLabelFromMetadata (some x)).1.ok = false := by
          simpa using hokx
        have hsame := TrySetLabelFromMetadata_unchanged self (some x) hfail
        simp only [hx, if_true, hfail, hsame]
        rcases List.mem_cons.1 hm with heq | hrest
        · subst heq
          simp [hok] at hfail
        · exact ih self m hrest hn hok
    · simp only [hx, if_false]
      rcases List.mem_cons.1 hm with heq | hrest
      · subst heq
        exact absurd hn hx
      · exact ih self m hrest hn hok

theorem metadataLabelStep_true_iff (self : NLClassifier) (options : NLClassifierOptions) :
    (self.metadataLabelStep options).1 = true ↔
      ∃ entries, self.model.output_tensor_metadata = some entries ∧
        entries.length = self.model.output_tensors.length ∧
        ∃ m, m ∈ entries ∧ m.name = some options.output_score_tensor_name ∧
          (self.TrySetLabelFromMetadata (some m)).1.ok = true := by
  unfold NLClassifier.metadataLabelStep
  cases hmd : self.model.output_tensor_metadata with
  | none => simp
  | some entries =>
    by_cases hlen : entries.length = self.model.output_tensors.length
    · simp only [hlen, if_true]
      constructor
      · intro h
        obtain ⟨m, hm, hn, hok, _⟩ := metadataLabelLoop_true _ entries self h
        exact ⟨entries, rfl, hlen, m, hm, hn, hok⟩
      · intro ⟨entries2, he, _, m, hm, hn, hok⟩
        cases he
        exact metadataLabelLoop_succeeds _ entries self m hm hn hok
    · simp only [hlen, if_false]
      constructor
      · intro h; cases h
      · intro ⟨entries2, he, hlen2, _⟩
        cases he
        exact absurd hlen2 hlen

theorem metadataLabelStep_true_state (self : NLClassifier) (options : NLClassifierOptions)
    (h : (self.metadataLabelStep options).1 = true) :
    ∃ m label_buffer, (self.TrySetLabelFromMetadata (some m)).1.ok = true ∧
      (self.metadataLabelStep options).2 =
        { self with labels_vector_ := some (LoadVocabFromBuffer label_buffer) } := by
  unfold NLClassifier.metadataLabelStep at h ⊢
  cases hmd : self.model.output_tensor_metadata with
  | none => simp [hmd] at h
  | some entries =>
    simp only [hmd] at h
    by_cases hlen : entries.length = self.model.output_tensors.length
    · simp only [hlen, if_true] at h ⊢
      obtain ⟨m, _, _, hok, hst⟩ := metadataLabelLoop_true _ entries self h
      obtain ⟨_, _, _, buf, _, _, _, _, heq⟩ := TrySetLabelFromMetadata_success self (some m) hok
      exact ⟨m, buf, hok, by rw [hst, heq]⟩
    · simp [hlen] at h

theorem metadataLabelStep_false_state (self : NLClassifier) (options : NLClassifierOptions)
    (h : (self.metadataLabelStep options).1 = false) :
    (self.metadataLabelStep options).2 = self := by
  have hall : ∀ entries, self.model.output_tensor_metadata = some entries →
      entries.length = self.model.output_tensors.length →
      ∀ md, md ∈ entries → md.name = some options.output_score_tensor_name →
        (self.TrySetLabelFromMetadata (some md)).1.ok = false := by
    intro entries hmd hlen md hmem hname
    by_contra hok
    have hok2 : (self.TrySetLabelFromMetadata (some md)).1.ok = true := by simpa using hok
    have htrue := (metadataLabelStep_true_iff self options).2
      ⟨entries, hmd, hlen, md, hmem, hname, hok2⟩
    rw [h] at htrue
    cases htrue
  rw [metadataLabelStep_fails self options hall]

/-! ## Results: the metadata loop of initialization -/

/-- C17, as stated, fails: the output metadata has two entries named as the configured
score tensor; the first has no associated file and fails, and `Initialize` then loads
the label list from the second one and returns success without reaching the label
tensor step. -/
theorem C17_later_matching_entry_counterexample :
    duplicateEntryModel.output_tensor_metadata =
      some [⟨some "OUTPUT_SCORE", none⟩, labelledEntry "OUTPUT_SCORE"] ∧
    duplicateEntryModel.output_tensors.length = 2 ∧
    ((newClassifier duplicateEntryModel).TrySetLabelFromMetadata
      (some ⟨some "OUTPUT_SCORE", none⟩)).1.ok = false ∧
    ((newClassifier duplicateEntryModel).Initialize exampleOptions).1 = OkStatus ∧
    ((newClassifier duplicateEntryModel).Initialize exampleOptions).2.labels_vector_ =
      some ["neg", "neu", "pos"] := by
  decide

/-- C17 (amended): for an output metadata list of the right length, `Initialize` hands
the entries named as the configured score tensor to `TrySetLabelFromMetadata` in list
order until one call succeeds: when the matching entries before an entry m all fail and
m matches, then if m yields labels `Initialize` returns success with the label list
loaded from m, and if m and all later matching entries fail too `Initialize` proceeds
to the label tensor step with the label list unchanged. -/
theorem C17_matching_entries_in_order (self : NLClassifier) (options : NLClassifierOptions)
    (input_tensor scores : TfLiteTensor)
    (pre : List TensorMetadata) (m : TensorMetadata) (post : List TensorMetadata)
    (hin : FindTensorWithNameOrIndex self.model.input_tensors
      self.model.input_tensor_metadata options.input_tensor_name
      options.input_tensor_index = some input_tensor)
    (hstr : input_tensor.type = TfLiteType.kTfLiteString)
    (hs : FindTensorWithNameOrIndex self.model.output_tensors
      self.model.output_tensor_metadata options.output_score_tensor_name
      options.output_score_tensor_index = some scores)
    (hvalid : scores.type = TfLiteType.kTfLiteUInt8 ∨ scores.type = TfLiteType.kTfLiteInt8 ∨
      scores.type = TfLiteType.kTfLiteInt16 ∨ scores.type = TfLiteType.kTfLiteFloat32 ∨
      scores.type = TfLiteType.kTfLiteFloat64)
    (hmd : self.model.output_tensor_metadata = some (pre ++ m :: post))
    (hlen : (pre ++ m :: post).length = self.model.output_tensors.length)
    (hpre : ∀ x, x ∈ pre → x.name = some options.output_score_tensor_name →
      (self.TrySetLabelFromMetadata (some x)).1.ok = false)
    (hname : m.name = some options.output_score_tensor_name) :
    ((self.TrySetLabelFromMetadata (some m)).1.ok = true →
      (self.Initialize options).1 = OkStatus ∧
      (self.Initialize options).2.labels_vector_ =
        (self.TrySetLabelFromMetadata (some m)).2.labels_vector_) ∧
    ((self.TrySetLabelFromMetadata (some m)).1.ok = false →
      (∀ x, x ∈ post → x.name = some options.output_score_tensor_name →
        (self.TrySetLabelFromMetadata (some x)).1.ok = false) →
      (self.Initialize options).1 =
        ({ self with options_ := options } : NLClassifier).labelTensorStep options scores ∧
      (self.Initialize options).2.labels_vector_ = self.labels_vector_) := by
  have hmem := (mem_valid_types _).2 hvalid
  constructor
  · intro hok
    have hpre2 : ∀ x, x ∈ pre → x.name = some options.output_score_tensor_name →
        (({ self with options_ := options } : NLClassifier).TrySetLabelFromMetadata
          (some x)).1.ok = false := by
      intro x hx hn
      rw [TrySetLabelFromMetadata_status_congr
        ({ self with options_ := options } : NLClassifier) self (some x) rfl]
      exact hpre x hx hn
    have hok2 : (({ self with options_ := options } : NLClassifier).TrySetLabelFromMetadata
        (some m)).1.ok = true := by
      rw [TrySetLabelFromMetadata_status_congr
        ({ self with options_ := options } : NLClassifier) self (some m) rfl]
      exact hok
    have hloop := metadataLabelLoop_first_success options.output_score_tensor_name pre
      ({ self with options_ := options } : NLClassifier) m post hpre2 hname hok2
    have hstep : ({ self with options_ := options } : NLClassifier).metadataLabelStep options =
        (true, (({ self with options_ := options } : NLClassifier).TrySetLabelFromMetadata
          (some m)).2) := by
      unfold NLClassifier.metadataLabelStep
      simp only [hmd, hlen, if_true]
      exact hloop
    rw [Initialize_validated self options input_tensor scores hin hstr hs hmem, hstep]
    simp only [if_true]
    exact ⟨trivial, TrySetLabelFromMetadata_labels_congr
      ({ self with options_ := options } : NLClassifier) self (some m) rfl rfl⟩
  · intro hfail hpost
    have hall : ∀ entries, self.model.output_tensor_metadata = some entries →
        entries.length = self.model.output_tensors.length →
        ∀ md, md ∈ entries → md.name = some options.output_score_tensor_name →
          (self.TrySetLabelFromMetadata (some md)).1.ok = false := by
      intro entries he _ md hmdmem hn
      rw [hmd] at he
      cases he
      rcases List.mem_append.1 hmdmem with h1 | h2
      · exact hpre md h1 hn
      · rcases List.mem_cons.1 h2 with h3 | h4
        · rw [h3]; exact hfail
        · exact hpost md h4 hn
    rw [Initialize_no_metadata_labels self options input_tensor scores hin hstr hs hmem hall]
    exact ⟨rfl, rfl⟩

/-- Witness of C17 (amended): the first matching entry fails and the label list is
loaded from the second matching entry. -/
theorem C17_matching_entries_in_order_witness :
    ((newClassifier duplicateEntryModel).Initialize exampleOptions).1 = OkStatus ∧
    ((newClassifier duplicateEntryModel).Initialize exampleOptions).2.labels_vector_ =
      ((newClassifier duplicateEntryModel).TrySetLabelFromMetadata
        (some (labelledEntry "OUTPUT_SCORE"))).2.labels_vector_ :=
  (C17_matching_entries_in_order (newClassifier duplicateEntryModel) exampleOptions
    textInput floatScores3 [⟨some "OUTPUT_SCORE", none⟩] (labelledEntry "OUTPUT_SCORE") []
    (by decide) (by decide) (by decide) (by decide) rfl (by decide)
    (fun x hx _ => by
      have hx2 : x = ⟨some "OUTPUT_SCORE", none⟩ := by simpa using hx
      subst hx2
      decide)
    (by decide)).1 (by decide)

/-! ## Results: outcome of initialization -/

theorem metadataLabelStep_options_iff (self : NLClassifier) (options : NLClassifierOptions) :
    (({ self with options_ := options } : NLClassifier).metadataLabelStep options).1 = true ↔
      ∃ entries, self.model.output_tensor_metadata = some entries ∧
        entries.length = self.model.output_tensors.length ∧
        ∃ m, m ∈ entries ∧ m.name = some options.output_score_tensor_name ∧
          (self.TrySetLabelFromMetadata (some m)).1.ok = true := by
  rw [metadataLabelStep_true_iff]
  constructor
  · intro ⟨entries, he, hl, m, hm, hn, hok⟩
    refine ⟨entries, he, hl, m, hm, hn, ?_⟩
    rw [← TrySetLabelFromMetadata_status_congr
      ({ self with options_ := options } : NLClassifier) self (some m) rfl]
    exact hok
  · intro ⟨entries, he, hl, m, hm, hn, hok⟩
    refine ⟨entries, he, hl, m, hm, hn, ?_⟩
    rw [TrySetLabelFromMetadata_status_congr
      ({ self with options_ := options } : NLClassifier) self (some m) rfl]
    exact hok

theorem labelTypeMismatch_ne_OkStatus (scores : TfLiteTensor) :
    labelTypeMismatch scores ≠ OkStatus := by
  intro h
  have hc := congrArg Status.code h
  simp [OkStatus, labelTypeMismatch, CreateStatusWithPayload] at hc

theorem labelTensorStep_ok_iff (self : NLClassifier) (options : NLClassifierOptions)
    (scores : TfLiteTensor) (hnull : self.labels_vector_ = none) :
    self.labelTensorStep options scores = OkStatus ↔
      (FindTensorWithNameOrIndex self.model.output_tensors self.model.output_tensor_metadata
          options.output_label_tensor_name options.output_label_tensor_index = none ∨
        ∃ labels, FindTensorWithNameOrIndex self.model.output_tensors
          self.model.output_tensor_metadata options.output_label_tensor_name
          options.output_label_tensor_index = some labels ∧
          labels.type = TfLiteType.kTfLiteString) := by
  unfold NLClassifier.labelTensorStep
  simp only [hnull, Option.isNone_none, if_true]
  cases hfind : FindTensorWithNameOrIndex self.model.output_tensors
      self.model.output_tensor_metadata options.output_label_tensor_name
      options.output_label_tensor_index with
  | none => simp
  | some labels =>
    by_cases htype : labels.type = TfLiteType.kTfLiteString
    · simp [htype]
    · simp [htype, labelTypeMismatch_ne_OkStatus]

theorem Initialize_validated_cases (self : NLClassifier) (options : NLClassifierOptions)
    (input_tensor scores : TfLiteTensor)
    (hin : FindTensorWithNameOrIndex self.model.input_tensors
      self.model.input_tensor_metadata options.input_tensor_name
      options.input_tensor_index = some input_tensor)
    (hstr : input_tensor.type = TfLiteType.kTfLiteString)
    (hs : FindTensorWithNameOrIndex self.model.output_tensors
      self.model.output_tensor_metadata options.output_score_tensor_name
      options.output_score_tensor_index = some scores)
    (hvalid : scores.type ∈ valid_types) :
    (self.Initialize options).1 = OkStatus ∨
      (self.Initialize options).1 = labelTypeMismatch scores := by
  rw [Initialize_validated self options input_tensor scores hin hstr hs hvalid]
  by_cases hstep :
      (({ self with options_ := options } : NLClassifier).metadataLabelStep options).1 = true
  · left
    simp [hstep]
  · simp only [hstep, if_false]
    exact labelTensorStep_cases _ options scores

theorem Initialize_success_iff (self : NLClassifier) (options : NLClassifierOptions)
    (hfresh : self.labels_vector_ = none) :
    ((self.Initialize options).1 = OkStatus ↔
      ((∃ input_tensor, FindTensorWithNameOrIndex self.model.input_tensors
          self.model.input_tensor_metadata options.input_tensor_name
          options.input_tensor_index = some input_tensor ∧
          input_tensor.type = TfLiteType.kTfLiteString) ∧
       (∃ scores, FindTensorWithNameOrIndex self.model.output_tensors
          self.model.output_tensor_metadata options.output_score_tensor_name
          options.output_score_tensor_index = some scores ∧
          (scores.type = TfLiteType.kTfLiteUInt8 ∨ scores.type = TfLiteType.kTfLiteInt8 ∨
            scores.type = TfLiteType.kTfLiteInt16 ∨ scores.type = TfLiteType.kTfLiteFloat32 ∨
            scores.type = TfLiteType.kTfLiteFloat64)) ∧
       ((∃ entries, self.model.output_tensor_metadata = some entries ∧
          entries.length = self.model.output_tensors.length ∧
          ∃ m, m ∈ entries ∧ m.name = some options.output_score_tensor_name ∧
            (self.TrySetLabelFromMetadata (some m)).1.ok = true) ∨
        FindTensorWithNameOrIndex self.model.output_tensors self.model.output_tensor_metadata
          options.output_label_tensor_name options.output_label_tensor_index = none ∨
        (∃ labels, FindTensorWithNameOrIndex self.model.output_tensors
          self.model.output_tensor_metadata options.output_label_tensor_name
          options.output_label_tensor_index = some labels ∧
          labels.type = TfLiteType.kTfLiteString)))) ∧
    ((self.Initialize options).1.ok = true ↔ (self.Initialize options).1 = OkStatus) := by
  constructor
  · cases hin : FindTensorWithNameOrIndex self.model.input_tensors
        self.model.input_tensor_metadata options.input_tensor_name
        options.input_tensor_index with
    | none =>
      simp [NLClassifier.Initialize, hin, CreateStatusWithPayload, OkStatus]
    | some input_tensor =>
      by_cases hstr : input_tensor.type = TfLiteType.kTfLiteString
      · cases hs : FindTensorWithNameOrIndex self.model.output_tensors
            self.model.output_tensor_metadata options.output_score_tensor_name
            options.output_score_tensor_index with
        | none =>
          simp [NLClassifier.Initialize, hin, hstr, hs, CreateStatusWithPayload, OkStatus]
        | some scores =>
          by_cases hvalid : scores.type ∈ valid_types
          · rw [Initialize_validated self options input_tensor scores hin hstr hs hvalid]
            have hfive := (mem_valid_types _).1 hvalid
            by_cases hstep : (({ self with options_ := options } : NLClassifier).metadataLabelStep
                options).1 = true
            · have hex := (metadataLabelStep_options_iff self options).1 hstep
              simp only [hstep, if_true]
              constructor
              · intro _
                exact ⟨⟨input_tensor, rfl, hstr⟩, ⟨scores, rfl, hfive⟩, Or.inl hex⟩
              · intro _
                trivial
            · have hflag : (({ self with options_ := options } : NLClassifier).metadataLabelStep
                  options).1 = false := by simpa using hstep
              have hst := metadataLabelStep_false_state _ options hflag
              have hnex := mt (metadataLabelStep_options_iff self options).2 hstep
              simp only [hflag, hst]
              have hiff := labelTensorStep_ok_iff
                ({ self with options_ := options } : NLClassifier) options scores hfresh
              simp only [Bool.false_eq_true, if_false]
              rw [hiff]
              constructor
              · intro h
                exact ⟨⟨input_tensor, rfl, hstr⟩, ⟨scores, rfl, hfive⟩, Or.inr h⟩
              · intro ⟨_, _, h⟩
                rcases h with h | h
                · exact absurd h hnex
                · exact h
          · have hnot : ¬ (scores.type = TfLiteType.kTfLiteUInt8 ∨
                scores.type = TfLiteType.kTfLiteInt8 ∨
                scores.type = TfLiteType.kTfLiteInt16 ∨
                scores.type = TfLiteType.kTfLiteFloat32 ∨
                scores.type = TfLiteType.kTfLiteFloat64) :=
              fun h => hvalid ((mem_valid_types _).2 h)
            have hst : (self.Initialize options).1 = scoreTypeMismatch scores := by
              simp [NLClassifier.Initialize, hin, hstr, hs, hvalid]
            rw [hst]
            constructor
            · intro h
              exact absurd h.symm (OkStatus_ne_scoreTypeMismatch scores)
            · intro ⟨_, ⟨s2, hs2, hfive⟩, _⟩
              cases hs2
              exact absurd hfive hnot
      · simp [NLClassifier.Initialize, hin, hstr, CreateStatusWithPayload, OkStatus]
  · constructor
    · intro hok
      cases hin : FindTensorWithNameOrIndex self.model.input_tensors
          self.model.input_tensor_metadata options.input_tensor_name
          options.input_tensor_index with
      | none =>
        simp [NLClassifier.Initialize, hin, CreateStatusWithPayload, Status.ok] at hok
      | some input_tensor =>
        by_cases hstr : input_tensor.type = TfLiteType.kTfLiteString
        · cases hs : FindTensorWithNameOrIndex self.model.output_tensors
              self.model.output_tensor_metadata options.output_score_tensor_name
              options.output_score_tensor_index with
          | none =>
            simp [NLClassifier.Initialize, hin, hstr, hs, CreateStatusWithPayload,
              Status.ok] at hok
          | some scores =>
            by_cases hvalid : scores.type ∈ valid_types
            · have hc := (Initialize_validated_cases self options input_tensor scores hin hstr hs hvalid)
              rcases hc with h | h
              · exact h
              · rw [h] at hok
                simp [labelTypeMismatch, CreateStatusWithPayload, Status.ok] at hok
            · have hst : (self.Initialize options).1 = scoreTypeMismatch scores := by
                simp [NLClassifier.Initialize, hin, hstr, hs, hvalid]
              rw [hst] at hok
              simp [scoreTypeMismatch, CreateStatusWithPayload, Status.ok] at hok
        · simp [NLClassifier.Initialize, hin, hstr, CreateStatusWithPayload, Status.ok] at hok
    · intro h
      rw [h]
      rfl

/-- C18: starting from a classifier with no label list, `Initialize` returns success
if and only if an input tensor is located and has type STRING, a score tensor is
located and its type is one of UInt8, Int8, Int16, Float32, Float64, and either some
metadata entry named as the configured score tensor yields a label list under the
count guard, or no label tensor is located, or the located label tensor has type
STRING. In particular a label list from the metadata gives success whatever the type
of the located label tensor. -/
theorem C18_success_condition (self : NLClassifier) (options : NLClassifierOptions)
    (hfresh : self.labels_vector_ = none) :
    ((self.Initialize options).1 = OkStatus ↔
      ((∃ input_tensor, FindTensorWithNameOrIndex self.model.input_tensors
          self.model.input_tensor_metadata options.input_tensor_name
          options.input_tensor_index = some input_tensor ∧
          input_tensor.type = TfLiteType.kTfLiteString) ∧
       (∃ scores, FindTensorWithNameOrIndex self.model.output_tensors
          self.model.output_tensor_metadata options.output_score_tensor_name
          options.output_score_tensor_index = some scores ∧
          (scores.type = TfLiteType.kTfLiteUInt8 ∨ scores.type = TfLiteType.kTfLiteInt8 ∨
            scores.type = TfLiteType.kTfLiteInt16 ∨ scores.type = TfLiteType.kTfLiteFloat32 ∨
            scores.type = TfLiteType.kTfLiteFloat64)) ∧
       ((∃ entries, self.model.output_tensor_metadata = some entries ∧
          entries.length = self.model.output_tensors.length ∧
          ∃ m, m ∈ entries ∧ m.name = some options.output_score_tensor_name ∧
            (self.TrySetLabelFromMetadata (some m)).1.ok = true) ∨
        FindTensorWithNameOrIndex self.model.output_tensors self.model.output_tensor_metadata
          options.output_label_tensor_name options.output_label_tensor_index = none ∨
        (∃ labels, FindTensorWithNameOrIndex self.model.output_tensors
          self.model.output_tensor_metadata options.output_label_tensor_name
          options.output_label_tensor_index = some labels ∧
          labels.type = TfLiteType.kTfLiteString)))) ∧
    ((self.Initialize options).1.ok = true ↔ (self.Initialize options).1 = OkStatus) :=
  Initialize_success_iff self options hfresh

/-- Witness of C18: the metadata entry of the score tensor yields labels, the located
label tensor is an int32 tensor, and `Initialize` returns success. -/
theorem C18_success_condition_witness :
    FindTensorWithNameOrIndex labelledIntLabelModel.output_tensors
      labelledIntLabelModel.output_tensor_metadata labelTensorOptions.output_label_tensor_name
      labelTensorOptions.output_label_tensor_index = some intLabels3 ∧
    intLabels3.type ≠ TfLiteType.kTfLiteString ∧
    ((newClassifier labelledIntLabelModel).Initialize labelTensorOptions).1 = OkStatus :=
  ⟨by decide, by decide,
    (C18_success_condition (newClassifier labelledIntLabelModel) labelTensorOptions rfl).1.2
      ⟨⟨textInput, by decide, by decide⟩,
        ⟨floatScores3, by decide, Or.inr (Or.inr (Or.inr (Or.inl rfl)))⟩,
        Or.inl ⟨[labelledEntry "OUTPUT_SCORE", ⟨some "label_ids", none⟩], rfl, by decide,
          labelledEntry "OUTPUT_SCORE", by decide, by decide, by decide⟩⟩⟩

theorem Initialize_labels_present_iff (self : NLClassifier) (options : NLClassifierOptions)
    (hfresh : self.labels_vector_ = none) :
    ((self.Initialize options).2.labels_vector_ ≠ none ↔
      ((∃ input_tensor, FindTensorWithNameOrIndex self.model.input_tensors
          self.model.input_tensor_metadata options.input_tensor_name
          options.input_tensor_index = some input_tensor ∧
          input_tensor.type = TfLiteType.kTfLiteString) ∧
       (∃ scores, FindTensorWithNameOrIndex self.model.output_tensors
          self.model.output_tensor_metadata options.output_score_tensor_name
          options.output_score_tensor_index = some scores ∧
          (scores.type = TfLiteType.kTfLiteUInt8 ∨ scores.type = TfLiteType.kTfLiteInt8 ∨
            scores.type = TfLiteType.kTfLiteInt16 ∨ scores.type = TfLiteType.kTfLiteFloat32 ∨
            scores.type = TfLiteType.kTfLiteFloat64)) ∧
       (∃ entries, self.model.output_tensor_metadata = some entries ∧
          entries.length = self.model.output_tensors.length ∧
          ∃ m, m ∈ entries ∧ m.name = some options.output_score_tensor_name ∧
            (self.TrySetLabelFromMetadata (some m)).1.ok = true))) := by
  cases hin : FindTensorWithNameOrIndex self.model.input_tensors
      self.model.input_tensor_metadata options.input_tensor_name
      options.input_tensor_index with
  | none => simp [NLClassifier.Initialize, hin, hfresh]
  | some input_tensor =>
    by_cases hstr : input_tensor.type = TfLiteType.kTfLiteString
    · cases hs : FindTensorWithNameOrIndex self.model.output_tensors
          self.model.output_tensor_metadata options.output_score_tensor_name
          options.output_score_tensor_index with
      | none => simp [NLClassifier.Initialize, hin, hstr, hs, hfresh]
      | some scores =>
        by_cases hvalid : scores.type ∈ valid_types
        · rw [Initialize_validated self options input_tensor scores hin hstr hs hvalid]
          have hfive := (mem_valid_types _).1 hvalid
          by_cases hstep : (({ self with options_ := options } : NLClassifier).metadataLabelStep
              options).1 = true
          · have hex := (metadataLabelStep_options_iff self options).1 hstep
            obtain ⟨m, buf, _, hst⟩ := metadataLabelStep_true_state _ options hstep
            simp only [hstep, if_true, hst]
            constructor
            · intro _
              exact ⟨⟨input_tensor, rfl, hstr⟩, ⟨scores, rfl, hfive⟩, hex⟩
            · intro _ h
              cases h
          · have hflag : (({ self with options_ := options } : NLClassifier).metadataLabelStep
                options).1 = false := by simpa using hstep
            have hst := metadataLabelStep_false_state _ options hflag
            have hnex := mt (metadataLabelStep_options_iff self options).2 hstep
            simp only [hflag, hst, Bool.false_eq_true, if_false]
            constructor
            · intro h
              exact absurd hfresh h
            · intro ⟨_, _, h⟩
              exact absurd h hnex
        · have hnot : ¬ (scores.type = TfLiteType.kTfLiteUInt8 ∨
              scores.type = TfLiteType.kTfLiteInt8 ∨
              scores.type = TfLiteType.kTfLiteInt16 ∨
              scores.type = TfLiteType.kTfLiteFloat32 ∨
              scores.type = TfLiteType.kTfLiteFloat64) :=
            fun h => hvalid ((mem_valid_types _).2 h)
          have hst : (self.Initialize options).2 = { self with options_ := options } := by
            simp [NLClassifier.Initialize, hin, hstr, hs, hvalid]
          rw [hst]
          constructor
          · intro h
            exact absurd hfresh h
          · intro ⟨_, ⟨s2, hs2, hfive⟩, _⟩
            cases hs2
            exact absurd hfive hnot
    · simp [NLClassifier.Initialize, hin, hstr, hfresh]

/-- C19: `TrySetLabelFromMetadata` leaves the classifier as it is on every error
return and assigns the label list (to the vocabulary of the label file) on success, so
that from a classifier with no label list the label list changes if and only if the
call succeeds. Consequently, starting from no label list, after `Initialize` the label
list is present if and only if the input and score tensors passed validation and a
metadata entry named as the configured score tensor yielded labels under the count
guard, in which case `Initialize` returned success; every failing `Initialize` leaves
the label list unset. -/
theorem C19_label_list_state (self : NLClassifier) (options : NLClassifierOptions)
    (metadata : Option TensorMetadata) :
    ((self.TrySetLabelFromMetadata metadata).1.ok = false →
      (self.TrySetLabelFromMetadata metadata).2 = self) ∧
    ((self.TrySetLabelFromMetadata metadata).1.ok = true →
      ∃ label_buffer, (self.TrySetLabelFromMetadata metadata).2.labels_vector_ =
        some (LoadVocabFromBuffer label_buffer)) ∧
    (self.labels_vector_ = none →
      ((self.TrySetLabelFromMetadata metadata).2.labels_vector_ ≠ self.labels_vector_ ↔
        (self.TrySetLabelFromMetadata metadata).1.ok = true)) ∧
    (self.labels_vector_ = none →
      ((self.Initialize options).2.labels_vector_ ≠ none ↔
        ((∃ input_tensor, FindTensorWithNameOrIndex self.model.input_tensors
            self.model.input_tensor_metadata options.input_tensor_name
            options.input_tensor_index = some input_tensor ∧
            input_tensor.type = TfLiteType.kTfLiteString) ∧
         (∃ scores, FindTensorWithNameOrIndex self.model.output_tensors
            self.model.output_tensor_metadata options.output_score_tensor_name
            options.output_score_tensor_index = some scores ∧
            (scores.type = TfLiteType.kTfLiteUInt8 ∨ scores.type = TfLiteType.kTfLiteInt8 ∨
              scores.type = TfLiteType.kTfLiteInt16 ∨
              scores.type = TfLiteType.kTfLiteFloat32 ∨
              scores.type = TfLiteType.kTfLiteFloat64)) ∧
         (∃ entries, self.model.output_tensor_metadata = some entries ∧
            entries.length = self.model.output_tensors.length ∧
            ∃ m, m ∈ entries ∧ m.name = some options.output_score_tensor_name ∧
              (self.TrySetLabelFromMetadata (some m)).1.ok = true))) ∧
      ((self.Initialize options).2.labels_vector_ ≠ none →
        (self.Initialize options).1 = OkStatus) ∧
      ((self.Initialize options).1.ok = false →
        (self.Initialize options).2.labels_vector_ = none)) := by
  refine ⟨TrySetLabelFromMetadata_unchanged self metadata, ?_, ?_, ?_⟩
  · intro hok
    obtain ⟨_, _, _, buf, _, _, _, _, heq⟩ := TrySetLabelFromMetadata_success self metadata hok
    exact ⟨buf, by rw [heq]⟩
  · intro hfresh
    constructor
    · intro hne
      by_contra hok
      have hfail : (self.TrySetLabelFromMetadata metadata).1.ok = false := by simpa using hok
      rw [TrySetLabelFromMetadata_unchanged self metadata hfail] at hne
      exact hne rfl
    · intro hok
      obtain ⟨_, _, _, buf, _, _, _, _, heq⟩ :=
        TrySetLabelFromMetadata_success self metadata hok
      rw [heq, hfresh]
      simp
  · intro hfresh
    have hiff := Initialize_labels_present_iff self options hfresh
    have hsucc : (self.Initialize options).2.labels_vector_ ≠ none →
        (self.Initialize options).1 = OkStatus := by
      intro hne
      obtain ⟨h1, h2, h3⟩ := hiff.1 hne
      exact (Initialize_success_iff self options hfresh).1.2 ⟨h1, h2, Or.inl h3⟩
    refine ⟨hiff, hsucc, ?_⟩
    intro hfail
    by_contra hne
    have hok := hsucc hne
    rw [hok] at hfail
    simp [OkStatus, Status.ok] at hfail

/-- Witness of C19: an error return of `TrySetLabelFromMetadata` leaves the classifier
as it is, and an `Initialize` that fails on an int32 label tensor leaves the label list
unset. -/
theorem C19_label_list_state_witness :
    ((newClassifier resolverModel).TrySetLabelFromMetadata none).1.ok = false ∧
    ((newClassifier resolverModel).TrySetLabelFromMetadata none).2 =
      newClassifier resolverModel ∧
    ((newClassifier intLabelModel).Initialize labelTensorOptions).1.ok = false ∧
    ((newClassifier intLabelModel).Initialize labelTensorOptions).2.labels_vector_ = none :=
  ⟨by decide,
    (C19_label_list_state (newClassifier resolverModel) exampleOptions none).1 (by decide),
    by decide,
    ((C19_label_list_state (newClassifier intLabelModel) labelTensorOptions none).2.2.2
      rfl).2.2 (by decide)⟩

theorem labelTensorStep_mismatch (self : NLClassifier) (options : NLClassifierOptions)
    (scores : TfLiteTensor)
    (h : self.labelTensorStep options scores ≠ OkStatus) :
    self.labelTensorStep options scores = labelTypeMismatch scores ∧
    self.labels_vector_ = none ∧
    ∃ labels, FindTensorWithNameOrIndex self.model.output_tensors
      self.model.output_tensor_metadata options.output_label_tensor_name
      options.output_label_tensor_index = some labels ∧
      labels.type ≠ TfLiteType.kTfLiteString := by
  unfold NLClassifier.labelTensorStep at h ⊢
  cases hlv : self.labels_vector_ with
  | some lv => simp [hlv] at h
  | none =>
    simp only [hlv, Option.isNone_none, if_true] at h ⊢
    cases hfind : FindTensorWithNameOrIndex self.model.output_tensors
        self.model.output_tensor_metadata options.output_label_tensor_name
        options.output_label_tensor_index with
    | none => simp [hfind] at h
    | some labels =>
      by_cases htype : labels.type = TfLiteType.kTfLiteString
      · simp [hfind, htype] at h
      · exact ⟨by simp [htype], trivial, labels, rfl, htype⟩

/-- C20: whenever `Initialize` fails after the input and score tensors passed
validation, it fails because the located label tensor is not of type STRING, and the
status is the label tensor diagnostic whose message is "Type mismatch for label tensor
<score name>. Requested STRING, got <score type>.", built from the name and the type
name of the score tensor; it does not mention the name or the type of the label
tensor. -/
theorem C20_label_mismatch_message (self : NLClassifier) (options : NLClassifierOptions)
    (input_tensor scores : TfLiteTensor)
    (hin : FindTensorWithNameOrIndex self.model.input_tensors
      self.model.input_tensor_metadata options.input_tensor_name
      options.input_tensor_index = some input_tensor)
    (hstr : input_tensor.type = TfLiteType.kTfLiteString)
    (hs : FindTensorWithNameOrIndex self.model.output_tensors
      self.model.output_tensor_metadata options.output_score_tensor_name
      options.output_score_tensor_index = some scores)
    (hvalid : scores.type = TfLiteType.kTfLiteUInt8 ∨ scores.type = TfLiteType.kTfLiteInt8 ∨
      scores.type = TfLiteType.kTfLiteInt16 ∨ scores.type = TfLiteType.kTfLiteFloat32 ∨
      scores.type = TfLiteType.kTfLiteFloat64)
    (hfail : (self.Initialize options).1.ok = false) :
    (∃ labels, FindTensorWithNameOrIndex self.model.output_tensors
      self.model.output_tensor_metadata options.output_label_tensor_name
      options.output_label_tensor_index = some labels ∧
      labels.type ≠ TfLiteType.kTfLiteString) ∧
    (self.Initialize options).1.payload =
      some TfLiteSupportStatus.kInvalidOutputTensorTypeError ∧
    (self.Initialize options).1.message =
      "Type mismatch for label tensor " ++ scores.name ++ ". Requested STRING, got " ++
        TfLiteTypeGetName scores.type ++ "." := by
  have hmem := (mem_valid_types _).2 hvalid
  have heq := Initialize_validated self options input_tensor scores hin hstr hs hmem
  by_cases hstep :
      (({ self with options_ := options } : NLClassifier).metadataLabelStep options).1 = true
  · rw [heq] at hfail
    simp [hstep, OkStatus, Status.ok] at hfail
  · have hflag : (({ self with options_ := options } : NLClassifier).metadataLabelStep
        options).1 = false := by simpa using hstep
    have hst := metadataLabelStep_false_state _ options hflag
    have hstatus : (self.Initialize options).1 =
        ({ self with options_ := options } : NLClassifier).labelTensorStep options scores := by
      rw [heq]
      simp only [hflag, hst, Bool.false_eq_true, if_false]
    have hne : ({ self with options_ := options } : NLClassifier).labelTensorStep options scores
        ≠ OkStatus := by
      intro h
      rw [hstatus, h] at hfail
      simp [OkStatus, Status.ok] at hfail
    obtain ⟨hmis, _, labels, hl, htype⟩ := labelTensorStep_mismatch _ options scores hne
    rw [hstatus, hmis]
    exact ⟨⟨labels, hl, htype⟩, rfl, rfl⟩

/-- Witness of C20: the offending label tensor is the int32 tensor "label_ids", the
message names the score tensor "probability" and its type FLOAT32. -/
theorem C20_label_mismatch_message_witness :
    intLabels3.name = "label_ids" ∧
    TfLiteTypeGetName intLabels3.type = "INT32" ∧
    ((newClassifier intLabelModel).Initialize labelTensorOptions).1.message =
      "Type mismatch for label tensor probability. Requested STRING, got FLOAT32." :=
  ⟨by decide, by decide,
    (C20_label_mismatch_message (newClassifier intLabelModel) labelTensorOptions textInput
      floatScores3 (by decide) (by decide) (by decide) (by decide) (by decide)).2.2.trans
      (by decide)⟩

/-! ## Results: classification calls -/

theorem labelAt_loaded (self : NLClassifier) (labels : Option TfLiteTensor)
    (lv : List String) (hlv : self.labels_vector_ = some lv) (i : Nat) :
    self.labelAt labels i = lv[i]? := by
  simp [NLClassifier.labelAt, hlv]

theorem Postprocess_label (self : NLClassifier) (output_tensors : List TfLiteTensor)
    (text : String) (r : List Category)
    (h : self.Postprocess output_tensors text = some r) (i : Nat) (c : Category)
    (hc : r[i]? = some c) :
    self.labelAt
      (FindTensorWithNameOrIndex output_tensors self.model.input_tensor_metadata
        self.options_.output_label_tensor_name self.options_.output_label_tensor_index) i =
      some c.label := by
  unfold NLClassifier.Postprocess at h
  cases hs : FindTensorWithNameOrIndex output_tensors self.model.output_tensor_metadata
      self.options_.output_score_tensor_name self.options_.output_score_tensor_index with
  | none => simp [hs] at h
  | some scores =>
    simp only [hs] at h
    have hi : i < r.length := by
      by_contra hge
      rw [List.getElem?_eq_none (by omega)] at hc
      cases hc
    obtain ⟨c2, hc2, _, hlabel⟩ := BuildResults_getElem self scores _ r h i hi
    rw [hc] at hc2
    cases hc2
    exact hlabel

/-- C11, as stated, fails in the mode where labels are read from the output label
tensor: the classifier is initialized successfully without label list, the engine
writes the labels in an order that depends on the text, and the two calls return
different label sequences. -/
theorem C11_label_tensor_mode_counterexample :
    ((newClassifier stringLabelModel).Initialize labelTensorOptions).1 = OkStatus ∧
    (((newClassifier stringLabelModel).Initialize labelTensorOptions).2.Classify
      rankingEngine "good").map (fun r => r.map (fun c => c.label)) =
        some ["pos", "neu", "neg"] ∧
    (((newClassifier stringLabelModel).Initialize labelTensorOptions).2.Classify
      rankingEngine "bad").map (fun r => r.map (fun c => c.label)) =
        some ["neg", "neu", "pos"] := by
  decide

/-- C11 (amended): for every fixed classifier and every two input texts on which
`Classify` returns, when a label list was loaded, or when neither call locates a label
tensor, the two results carry the same label at every common position, and the same
label sequence when they have the same number of categories. (When labels are read
from the label tensor, they are the strings that tensor holds in that call.) -/
theorem C11_label_determinism (self : NLClassifier) (engine : String → List TfLiteTensor)
    (t1 t2 : String) (r1 r2 : List Category)
    (h1 : self.Classify engine t1 = some r1) (h2 : self.Classify engine t2 = some r2)
    (hmode : self.labels_vector_ ≠ none ∨
      (FindTensorWithNameOrIndex (engine t1) self.model.input_tensor_metadata
          self.options_.output_label_tensor_name self.options_.output_label_tensor_index
            = none ∧
        FindTensorWithNameOrIndex (engine t2) self.model.input_tensor_metadata
          self.options_.output_label_tensor_name self.options_.output_label_tensor_index
            = none)) :
    (∀ (i : Nat) (c1 c2 : Category),
      r1[i]? = some c1 → r2[i]? = some c2 → c1.label = c2.label) ∧
    (r1.length = r2.length →
      r1.map (fun c => c.label) = r2.map (fun c => c.label)) := by
  have hpos : ∀ (i : Nat) (c1 c2 : Category),
      r1[i]? = some c1 → r2[i]? = some c2 → c1.label = c2.label := by
    intro i c1 c2 hc1 hc2
    have hl1 := Postprocess_label self (engine t1) t1 r1 h1 i c1 hc1
    have hl2 := Postprocess_label self (engine t2) t2 r2 h2 i c2 hc2
    rcases hmode with hlist | ⟨hn1, hn2⟩
    · cases hlv : self.labels_vector_ with
      | none => exact absurd hlv hlist
      | some lv =>
        rw [labelAt_loaded self _ lv hlv i] at hl1 hl2
        rw [hl1] at hl2
        exact Option.some.inj hl2
    · rw [hn1] at hl1
      rw [hn2] at hl2
      rw [hl1] at hl2
      exact Option.some.inj hl2
  refine ⟨hpos, ?_⟩
  intro hlen
  apply List.ext_getElem?
  intro i
  simp only [List.getElem?_map]
  by_cases hi : i < r1.length
  · have hi2 : i < r2.length := by omega
    have e1 : r1[i]? = some r1[i] := List.getElem?_eq_getElem hi
    have e2 : r2[i]? = some r2[i] := List.getElem?_eq_getElem hi2
    rw [e1, e2]
    simp only [Option.map_some']
    rw [hpos i r1[i] r2[i] e1 e2]
  · rw [List.getElem?_eq_none (by omega), List.getElem?_eq_none (by omega)]

/-- Witness of C11 (amended): with a loaded label list the two calls of the
counterexample return the same labels, although the label tensors differ. -/
theorem C11_label_determinism_witness :
    rankingEngine "good" ≠ rankingEngine "bad" ∧
    (threeLabelClassifier.Classify rankingEngine "good").map
      (fun r => r.map (fun c => c.label)) = some ["negative", "neutral", "positive"] ∧
    [(⟨"negative", Score.float32 0⟩ : Category), ⟨"neutral", Score.float32 1⟩,
        ⟨"positive", Score.float32 2⟩].map (fun c => c.label) =
      [(⟨"negative", Score.float32 0⟩ : Category), ⟨"neutral", Score.float32 1⟩,
        ⟨"positive", Score.float32 2⟩].map (fun c => c.label) :=
  ⟨by decide, by decide,
    (C11_label_determinism threeLabelClassifier rankingEngine "good" "bad"
      [⟨"negative", Score.float32 0⟩, ⟨"neutral", Score.float32 1⟩,
        ⟨"positive", Score.float32 2⟩]
      [⟨"negative", Score.float32 0⟩, ⟨"neutral", Score.float32 1⟩,
        ⟨"positive", Score.float32 2⟩]
      (by decide) (by decide) (Or.inl (by decide))).2 rfl⟩

/-- C12, evaluated where the code departs from it: the label tensor is selected by its
metadata name. `Initialize` locates it with the output tensor metadata, checks that it
has type STRING and returns success; `Postprocess` looks it up with the input tensor
metadata, finds no tensor, and labels the categories by position instead of reading
the validated label tensor. -/
theorem C12_label_tensor_lookup_differs :
    ((newClassifier namedLabelModel).Initialize namedOptions).1 = OkStatus ∧
    ((newClassifier namedLabelModel).Initialize namedOptions).2.labels_vector_ = none ∧
    FindTensorWithNameOrIndex namedLabelModel.output_tensors
      namedLabelModel.output_tensor_metadata namedOptions.output_label_tensor_name
      namedOptions.output_label_tensor_index = some labelStrings3 ∧
    labelStrings3.type = TfLiteType.kTfLiteString ∧
    FindTensorWithNameOrIndex namedLabelModel.output_tensors
      namedLabelModel.input_tensor_metadata namedOptions.output_label_tensor_name
      namedOptions.output_label_tensor_index = none ∧
    (((newClassifier namedLabelModel).Initialize namedOptions).2.Postprocess
      namedLabelModel.output_tensors "hello").map (fun r => r.map (fun c => c.label)) =
        some ["0", "1", "2"] ∧
    (((newClassifier namedLabelModel).Initialize namedOptions).2.BuildResults floatScores3
      (some labelStrings3)).map (fun r => r.map (fun c => c.label)) =
        some ["neg", "neu", "pos"] := by
  decide

/-- C13, evaluated where the code departs from it: the label file of the score tensor
has two lines and the score tensor has three categories. `Initialize` returns success
with a label list of two entries, and `BuildResults` then reads the label list at
index 2, past its end, so that `Postprocess` has no result. -/
theorem C13_label_list_shorter_than_categories :
    ((newClassifier twoLineLabelModel).Initialize exampleOptions).1 = OkStatus ∧
    ((newClassifier twoLineLabelModel).Initialize exampleOptions).2.labels_vector_ =
      some ["neg", "pos"] ∧
    scoreCategories floatScores3 = some 3 ∧
    ((newClassifier twoLineLabelModel).Initialize exampleOptions).2.labelAt none 2 = none ∧
    ((newClassifier twoLineLabelModel).Initialize exampleOptions).2.Postprocess
      twoLineLabelModel.output_tensors "hello" = none := by
  decide
